import Mathlib

/-!
Verification of the order-tracking bot (src/bot.py, src/db.py, src/watchdog.py).

The Python source is shallowly embedded: dictionaries become association
lists over `String` keys, `None`-able values become `Option`, Python
truthiness is made explicit (`strTruthy`, `natTruthy`), the sqlite store
and the in-memory fingerprint cache are threaded as explicit state, and
channel / remote effects are either environment parameters or an explicit
effect list.  Every definition is named after the Python function it
embeds.
-/

set_option autoImplicit false

namespace BotAbcp

/-! ### Python string primitives -/

/-- One character of Python `str.lower()`, restricted to the alphabets the
repository actually uses: ASCII letters and Russian Cyrillic
(`А`..`Я` are U+0410..U+042F and lower to +0x20, `Ё` U+0401 lowers to
U+0451).  Other characters are unchanged. -/
def pyLowerChar (c : Char) : Char :=
  if 'A' ≤ c ∧ c ≤ 'Z' then Char.ofNat (c.toNat + 32)
  else if 0x410 ≤ c.toNat ∧ c.toNat ≤ 0x42F then Char.ofNat (c.toNat + 0x20)
  else if c.toNat = 0x401 then Char.ofNat 0x451
  else c

/-- Python `str.lower()` (see `pyLowerChar`). -/
def pyLower (s : String) : String := String.mk (s.data.map pyLowerChar)

/-- Does the second list start with the first one?  (Helper for Python
substring containment.) -/
def chBegins : List Char → List Char → Bool
  | [], _ => true
  | _ :: _, [] => false
  | a :: as, b :: bs => a == b && chBegins as bs

/-- Substring search on character lists (helper for `pyIn`). -/
def chHasSub (needle : List Char) : List Char → Bool
  | [] => chBegins needle []
  | b :: bs => chBegins needle (b :: bs) || chHasSub needle bs

/-- Python `needle in hay` on strings. -/
def pyIn (needle hay : String) : Bool := chHasSub needle.data hay.data

/-- Python truthiness of an optional string: `None` and `""` are falsy;
returns the string when truthy. -/
def strTruthy : Option String → Option String
  | none => none
  | some s => if s = "" then none else some s

/-- Python truthiness of an optional integer: `None` and `0` are falsy. -/
def natTruthy : Option Nat → Option Nat
  | none => none
  | some n => if n = 0 then none else some n

/-- Python `a or b` for optional strings (falsy `a` falls through). -/
def pyOrStr (a b : Option String) : Option String :=
  match strTruthy a with
  | some s => some s
  | none => b

/-- Python `a or b` for optional integers (falsy `a` falls through). -/
def pyOrNat (a b : Option Nat) : Option Nat :=
  match natTruthy a with
  | some n => some n
  | none => b

/-- Python whitespace for `str.strip()` (space, tab, newline, carriage
return, vertical tab, form feed — the ASCII set the repository's data can
contain). -/
def pySpace (c : Char) : Bool :=
  c == ' ' || c == '\t' || c == '\n' || c == '\r' || c.toNat == 11 || c.toNat == 12

/-- Python `str.strip()`: drop leading and trailing whitespace. -/
def pyStrip (s : String) : String :=
  String.mk (((s.data.dropWhile pySpace).reverse.dropWhile pySpace).reverse)

/-- Python `str.replace(pat, rep)` body; fuel-driven so that the kernel can
evaluate it.  Each step consumes at least one character, so fuel equal to
the length of the scanned list makes the fuel-0 branch unreachable. -/
def chReplaceAux (pat rep : List Char) : Nat → List Char → List Char
  | 0, s => s
  | _ + 1, [] => []
  | fuel + 1, c :: rest =>
    if chBegins pat (c :: rest) then
      rep ++ chReplaceAux pat rep fuel (List.drop (pat.length - 1) rest)
    else c :: chReplaceAux pat rep fuel rest

/-- Python `s.replace(pat, rep)` for a non-empty pattern (the repository
only replaces the two-blank pattern). -/
def pyReplace (pat rep s : String) : String :=
  if pat.data = [] then s
  else String.mk (chReplaceAux pat.data rep.data s.data.length s.data)

/-! ### Python dictionaries as association lists -/

/-- Dictionary lookup (`d.get(key)`). -/
def aget {α : Type} : List (String × α) → String → Option α
  | [], _ => none
  | (k, v) :: rest, key => if k = key then some v else aget rest key

/-- Dictionary update (`d[key] = v`), keeping insertion order like a Python
dict. -/
def aset {α : Type} : List (String × α) → String → α → List (String × α)
  | [], key, v => [(key, v)]
  | (k, w) :: rest, key, v =>
    if k = key then (key, v) :: rest else (k, w) :: aset rest key v

/-- `{order_number: token}` and friends. -/
abbrev Dict := List (String × String)

/-! ### Hexadecimal tokens (`format(counter, "x")`) -/

/-- Lower-case hexadecimal digit. -/
def hexDigit (d : Nat) : Char :=
  if d < 10 then Char.ofNat (48 + d) else Char.ofNat (87 + d)

/-- Hex rendering loop; fuel-driven (a number `n ≥ 1` has at most `n`
digits, so fuel `n` suffices and the fuel-0 branch is unreachable). -/
def toHexAux : Nat → Nat → List Char
  | 0, _ => []
  | _ + 1, 0 => []
  | fuel + 1, n + 1 => toHexAux fuel ((n + 1) / 16) ++ [hexDigit ((n + 1) % 16)]

/-- Python `format(n, "x")`: compact lower-case hexadecimal. -/
def toHex (n : Nat) : String :=
  if n = 0 then "0" else String.mk (toHexAux n n)

/-- Largest length of a string in a list (used to bound the token-search
fuel). -/
def maxStrLen (l : List String) : Nat :=
  l.foldr (fun s acc => max s.length acc) 0

/-- The `while True` candidate search inside `assign_order_tokens`
(src/bot.py lines 250-256): try `format(counter, "x")`, increment the
counter, return the first candidate not in `used`.  Fuel-driven; since a
number of magnitude `16 ^ maxStrLen used` renders to a string strictly
longer than every member of `used`, a fresh candidate always occurs within
the fuel and the fuel-0 branch is unreachable, so this equals the source's
unbounded loop. -/
def next_token_search (used : List String) : Nat → Nat → String × Nat
  | counter, 0 => (toHex counter, counter + 1)
  | counter, fuel + 1 =>
    if used.contains (toHex counter) then next_token_search used (counter + 1) fuel
    else (toHex counter, counter + 1)

/-- `next_token()` of src/bot.py lines 250-256: first unused compact hex
token at or after `counter`, together with the advanced counter. -/
def next_token (used : List String) (counter : Nat) : String × Nat :=
  next_token_search used counter (16 ^ maxStrLen used)

/-! ### Data model

An `Order` is the transient record returned by the remote source.  Python
reads every field with `dict.get`, so each field is an `Option`; a `none`
stands for a missing key or an explicit `None` value (the code treats the
two alike everywhere it matters, via `get` defaults and truthiness).
`paid` is read as `bool(order.get("paid"))`, hence a plain `Bool`. -/

structure Position where
  brand : Option String
  description : Option String
  status : Option String
  priceOut : Option String
  quantity : Option String
deriving DecidableEq, Repr

structure Order where
  number : Option String
  paid : Bool
  date : Option String
  sum : Option String
  paymentType : Option String
  comment : Option String
  deliveryOffice : Option String
  positions : List Position
deriving DecidableEq, Repr

/-- `FILTER_MODES` of src/bot.py lines 55-59. -/
def FILTER_MODES : Dict :=
  [("all", "Все"), ("active", "В работе"), ("unpaid", "Неоплаченные")]

/-- `DONE_KEYWORDS` of src/bot.py line 60. -/
def DONE_KEYWORDS : List String :=
  ["готов", "выдан", "закрыт", "заверш", "отмен", "отказ"]

/-- `emoji_for_status_line` of src/bot.py lines 86-96. -/
def emoji_for_status_line (status : String) : String :=
  let s := pyLower status
  if pyIn "готово" s then "✅"
  else if pyIn "в пути" s then "🚚"
  else if pyIn "к заказу" s then "🕐"
  else if pyIn "отказ" s then "❌"
  else "📦"

/-- The per-position lines of `format_order_status` (src/bot.py lines
126-137): emoji + label, status line, quantity/price line, blank spacer. -/
def position_lines (pos : Position) : List String :=
  let brand := pyStrip (pos.brand.getD "")
  let desc := pyStrip (pos.description.getD "")
  let status := pos.status.getD ""
  let price := pos.priceOut.getD ""
  let qty := pos.quantity.getD "1"
  let label0 := String.intercalate " " (List.filter (fun s => s ≠ "") [brand, desc])
  let label := if label0 = "" then "Позиция" else label0
  [emoji_for_status_line status ++ " " ++ label,
   "   📄 " ++ status,
   "   📦 Кол-во: " ++ qty ++ " | 💵 " ++ price ++ " ₽",
   ""]

/-- `format_order_status` of src/bot.py lines 99-144.  `aliases` is the
`OFFICE_ALIASES` dictionary from the (absent) config module, kept as a
parameter; the theorems quantify over it. -/
def format_order_status (aliases : String → Option String) (order : Order) : String :=
  let number := order.number.getD "-"
  let delivery_office := order.deliveryOffice.getD ""
  let office_address0 := (aliases delivery_office).getD delivery_office
  let office_address := if office_address0 = "" then "—" else office_address0
  let date := order.date.getD "-"
  let total := order.sum.getD "0"
  let payment_type := order.paymentType.getD "—"
  let paid := order.paid
  let comment := pyStrip (order.comment.getD "")
  let lines := [
    "📦 Заказ №" ++ number,
    "📅 Дата: " ++ date,
    "🏢 Офис: " ++ office_address,
    "💳 Способ оплаты: " ++ payment_type,
    "💰 Сумма: " ++ total ++ " ₽",
    "📍 Статус счёта: " ++ (if paid then "✅ Оплачен" else "⏳ Не оплачен")]
  let lines := if comment = "" then lines else lines ++ ["💬 Комментарий: " ++ comment]
  let lines :=
    if order.positions = [] then lines ++ ["", "🧾 Позиции: нет данных"]
    else
      let all := lines ++ ["", "🧾 Позиции:"] ++ order.positions.flatMap position_lines
      -- `if lines and lines[-1] == "": lines.pop()`
      if all.getLast? = some "" then all.dropLast else all
  String.intercalate "\n" lines

/-- `format_order_detail` of src/bot.py lines 147-149. -/
def format_order_detail (aliases : String → Option String) (order : Order) : String :=
  format_order_status aliases order ++
    "\n\nℹ️ Используйте кнопки ниже, чтобы вернуться к списку или обновить заказ."

/-- `is_position_closed` of src/bot.py lines 152-154. -/
def is_position_closed (status : Option String) : Bool :=
  let text := pyLower (status.getD "")
  DONE_KEYWORDS.any (fun keyword => pyIn keyword text)

/-- `is_order_active` of src/bot.py lines 157-161. -/
def is_order_active (order : Order) : Bool :=
  if order.positions = [] then !order.paid
  else order.positions.any (fun pos => !is_position_closed pos.status)

/-- `is_order_unpaid` of src/bot.py lines 164-165. -/
def is_order_unpaid (order : Order) : Bool := !order.paid

structure Metrics where
  total : Nat
  active : Nat
  unpaid : Nat
deriving DecidableEq, Repr

/-- `calculate_orders_metrics` of src/bot.py lines 168-172. -/
def calculate_orders_metrics (orders : List Order) : Metrics :=
  { total := orders.length,
    active := orders.countP (fun o => is_order_active o),
    unpaid := orders.countP (fun o => is_order_unpaid o) }

/-- `filter_orders_for_view` of src/bot.py lines 175-180. -/
def filter_orders_for_view (orders : List Order) (mode : String) : List Order :=
  if mode = "active" then orders.filter (fun o => is_order_active o)
  else if mode = "unpaid" then orders.filter (fun o => is_order_unpaid o)
  else orders

/-- One numbered row of `format_orders_overview` (src/bot.py lines
210-230), including the final `.replace("  ", " ")`. -/
def overview_order_line (idx : Nat) (order : Order) : String :=
  let number := order.number.getD "-"
  let date := order.date.getD "-"
  let total := order.sum.getD "0"
  let paid := order.paid
  let first_status :=
    ((order.positions.filterMap (fun p => strTruthy p.status)).headD "Статус неизвестен")
  pyReplace "  " " " (String.intercalate " "
    [toString idx ++ ". №" ++ number,
     "• " ++ date,
     "• " ++ emoji_for_status_line first_status ++ " " ++ first_status,
     "• " ++ total ++ " ₽",
     if paid then "• ✅ Оплачен" else "• ⏳ Не оплачен"])

/-- `format_orders_overview` of src/bot.py lines 183-235. -/
def format_orders_overview (orders : List Order) (metrics : Metrics)
    (filter_mode : String) (refreshed_at : Option String) : String :=
  let total_count := metrics.total
  let active_count := metrics.active
  let unpaid_count := metrics.unpaid
  let visible_count := orders.length
  if total_count = 0 then
    match strTruthy refreshed_at with
    | some r => "🕐 Заказов пока нет." ++ "\n\n🔄 Обновлено: " ++ r
    | none => "🕐 Заказов пока нет."
  else
    let header := [
      "📋 Показано: " ++ toString visible_count ++ " из " ++ toString total_count,
      "⚙️ Фильтр: " ++ (aget FILTER_MODES filter_mode).getD "Все",
      "🚧 В работе: " ++ toString active_count ++ " • 💸 Неоплаченных: " ++ toString unpaid_count,
      ""]
    let body :=
      if orders = [] then
        ["Для выбранного фильтра заказов нет. Смените фильтр или обновите список."]
      else orders.enum.map (fun p => overview_order_line (p.1 + 1) p.2)
    let lines := header ++ body
    let lines :=
      match strTruthy refreshed_at with
      | some r => lines ++ ["", "🔄 Обновлено: " ++ r]
      | none => lines
    String.intercalate "\n" lines

/-! ### Token allocation (`assign_order_tokens`, src/bot.py lines 238-273) -/

structure TokenState where
  used : List String
  number_to_token : Dict
  token_to_number : Dict
  counter : Nat
deriving DecidableEq, Repr

/-- Token choice for one order (src/bot.py lines 263-267): reuse the
previous token when it is truthy and unused in this generation
(`if token and token not in used_tokens`), else draw a fresh one. -/
def assign_pick (existing_map : Dict) (st : TokenState) (number_str : String) :
    String × Nat :=
  match aget existing_map number_str with
  | some token =>
    if token ≠ "" ∧ ¬ st.used.contains token then (token, st.counter)
    else next_token st.used st.counter
  | none => next_token st.used st.counter

/-- The body of the `for order in orders` loop of `assign_order_tokens`
(src/bot.py lines 258-271).  `existing_map` is the previous
`number_to_token` map. -/
def assign_step (existing_map : Dict) (st : TokenState) (order : Order) : TokenState :=
  match strTruthy order.number with
  | none => st        -- `if not number: continue`
  | some number_str =>
    let pick := assign_pick existing_map st number_str
    { used := pick.1 :: st.used,
      number_to_token := aset st.number_to_token number_str pick.1,
      token_to_number := aset st.token_to_number pick.1 number_str,
      counter := pick.2 }

/-- `assign_order_tokens` of src/bot.py lines 238-273; returns
`(number_to_token, token_to_number)`.  A `None` previous map is the empty
dictionary (`existing_map = existing_map or {}`). -/
def assign_order_tokens (orders : List Order) (existing_map : Dict) : Dict × Dict :=
  let st := orders.foldl (assign_step existing_map) ⟨[], [], [], 0⟩
  (st.number_to_token, st.token_to_number)

/-! ### Fingerprint cache and snapshot store -/

/-- The in-memory `_status_cache` (`{order_number: formatted_text}`). -/
abbrev Cache := Dict

/-- One row of the sqlite `orders` table (src/db.py lines 14-21), minus
the timestamp.  `status` is always a string when written by the code;
`message_id` is nullable. -/
structure OrderRow where
  user_id : String
  status : String
  message_id : Option Nat
deriving DecidableEq, Repr

/-- The sqlite `orders` table, keyed by `order_number`. -/
abbrev Store := List (String × OrderRow)

/-- `get_order_status` of src/db.py lines 37-43. -/
def get_order_status (store : Store) (order_number : String) : Option String :=
  (aget store order_number).map (fun r => r.status)

/-- `get_order_message` of src/db.py lines 44-50 (absent row and NULL
column both give `None`). -/
def get_order_message (store : Store) (order_number : String) : Option Nat :=
  (aget store order_number).bind (fun r => r.message_id)

/-- `update_order_status` of src/db.py lines 51-71: keyed upsert that
keeps the existing `message_id` when the argument is `None`. -/
def update_order_status (store : Store) (order_number user_id status : String)
    (message_id : Option Nat) : Store :=
  let mid :=
    match message_id with
    | some m => some m
    | none => get_order_message store order_number
  aset store order_number ⟨user_id, status, mid⟩

/-- The loop body of `update_cache_from_orders` (src/bot.py lines
324-332): write the order's rendered status into the cache, skipping only
orders whose `number` is `None`; the flag records whether anything
changed. -/
def update_cache_step (aliases : String → Option String)
    (acc : Cache × Bool) (order : Order) : Cache × Bool :=
  match order.number with
  | none => acc     -- `if number is None: continue`
  | some number_str =>
    let text := format_order_status aliases order
    let changed := acc.2 || decide (aget acc.1 number_str ≠ some text)
    (aset acc.1 number_str text, changed)

/-- `update_cache_from_orders` of src/bot.py lines 322-334 (the code then
rewrites the cache file when the flag is set). -/
def update_cache_from_orders (aliases : String → Option String)
    (cache : Cache) (orders : List Order) : Cache × Bool :=
  orders.foldl (update_cache_step aliases) (cache, false)

/-- The loop body of `persist_orders_snapshot` (src/bot.py lines
344-356): upsert one order's rendered status, skipping falsy order
numbers; a failing upsert is logged and swallowed. -/
def persist_order_step (aliases : String → Option String) (uid : String)
    (acc : Store) (order : Order) : Store :=
  match strTruthy order.number with
  | none => acc  -- `if not number: continue`
  | some number_str =>
    update_order_status acc number_str uid (format_order_status aliases order) none

/-- `persist_orders_snapshot` of src/bot.py lines 337-356: upsert every
order's rendered status, doing nothing for a falsy user id. -/
def persist_orders_snapshot (aliases : String → Option String)
    (store : Store) (user_id : Option String) (orders : List Order) : Store :=
  match strTruthy user_id with
  | none => store      -- `if not user_id: return`
  | some uid => orders.foldl (persist_order_step aliases uid) store

/-! ### Change detector (`build_changes_actions_for_user`, src/bot.py
lines 1414-1483) -/

/-- One `NotificationAction` dictionary appended at src/bot.py lines
1469-1478. -/
structure Action where
  chat_id : Nat
  user_id : String
  order_number : String
  message_id : Option Nat
  text : String
  raw_text : String
deriving DecidableEq, Repr

/-- A row of the `users` table as consumed by the watchdog
(`user.get("telegram_id") or user.get("chat_id")`, etc.). -/
structure WDUser where
  telegram_id : Option Nat
  chat_id : Option Nat
  user_id : Option String
  abcp_user_id : Option String
deriving DecidableEq, Repr

/-- The detector's running state over one polling pass of one user:
the global `_status_cache`, the sqlite store, the collected actions and
the `cache_dirty` flag. -/
structure WDState where
  cache : Cache
  store : Store
  actions : List Action
  cache_dirty : Bool
deriving DecidableEq, Repr

/-- The body of the `for order in orders` loop of
`build_changes_actions_for_user` (src/bot.py lines 1432-1478): classify
one order as unchanged / first sighting / changed. -/
def wd_process_order (aliases : String → Option String) (chat_id : Nat)
    (user_id : String) (st : WDState) (order : Order) : WDState :=
  match order.number with
  | none => st         -- `if number is None: continue`
  | some number_str =>
    let fresh_text := format_order_status aliases order
    let cache_text := aget st.cache number_str
    let stored_status := get_order_status st.store number_str
    let stored_message_id := get_order_message st.store number_str
    if cache_text = some fresh_text ∨ stored_status = some fresh_text then
      -- unchanged: refresh a stale cache entry, no action
      if cache_text ≠ some fresh_text then
        { st with cache := aset st.cache number_str fresh_text, cache_dirty := true }
      else st
    else if (match stored_status with
             | none => true
             | some s => s = "" ∨ pyIn "Заказ №" s = false) then
      -- first sighting (`not stored_status or "Заказ №" not in stored_status`):
      -- persist the baseline, no notification
      { st with
        store := update_order_status st.store number_str user_id fresh_text stored_message_id,
        cache := aset st.cache number_str fresh_text,
        cache_dirty := true }
    else
      { st with actions := st.actions ++
          [{ chat_id := chat_id, user_id := user_id, order_number := number_str,
             message_id := stored_message_id,
             text := "📢 Обновление статусов:\n\n" ++ fresh_text,
             raw_text := fresh_text }] }

/-- `build_changes_actions_for_user` of src/bot.py lines 1414-1483.
`orders` is the result of `get_orders_by_user_id` (that call returns `[]`
on any failure, src/api.py lines 29-46). -/
def build_changes_actions_for_user (aliases : String → Option String)
    (u : WDUser) (orders : List Order) (cache : Cache) (store : Store) : WDState :=
  match natTruthy (pyOrNat u.telegram_id u.chat_id),
        strTruthy (pyOrStr u.user_id u.abcp_user_id) with
  | some chat_id, some user_id =>
    orders.foldl (wd_process_order aliases chat_id user_id) ⟨cache, store, [], false⟩
  | _, _ => ⟨cache, store, [], false⟩   -- `if not chat_id or not user_id: return []`

/-! ### Notification dispatcher (the per-action body of `watchdog_job`,
src/bot.py lines 1497-1531) -/

/-- Outcome of the channel's `edit_message_text` call, when attempted:
success, a `BadRequest` (caught at src/bot.py line 1512 — the dispatcher
falls back to resending), or any other error (propagates to the outer
handler at line 1532, which drops the action). -/
inductive EditResult
  | ok
  | badRequest
  | otherError
deriving DecidableEq, Repr

/-- Channel outcomes for one dispatched action: the edit result (used only
if an edit is attempted) and the send result (`some id` on success, `none`
when the send raises). -/
structure DeliveryEnv where
  edit : EditResult
  send : Option Nat
deriving DecidableEq, Repr

/-- Result of dispatching one action: the updated cache and store, and the
message id actually delivered (`none` when the action was dropped). -/
structure DispatchResult where
  cache : Cache
  store : Store
  delivered : Option Nat
  sentNew : Bool
deriving DecidableEq, Repr

/-- After delivery succeeds with message id `mid`: persist the snapshot
with the new fingerprint and message reference and refresh the cache
(src/bot.py lines 1523-1530). -/
def dispatch_persist (cache : Cache) (store : Store) (a : Action)
    (mid : Nat) (sentNew : Bool) : DispatchResult :=
  { cache := aset cache a.order_number a.raw_text,
    store := update_order_status store a.order_number a.user_id a.raw_text (some mid),
    delivered := some mid,
    sentNew := sentNew }

/-- The `if not new_message_id:` send fallback of src/bot.py lines
1517-1521 followed by the persist step; a failed send drops the action. -/
def dispatch_send (env : DeliveryEnv) (cache : Cache) (store : Store)
    (a : Action) : DispatchResult :=
  match env.send with
  | some mid => dispatch_persist cache store a mid true
  | none => { cache := cache, store := store, delivered := none, sentNew := false }

/-- The per-action body of `watchdog_job` (src/bot.py lines 1503-1531):
edit in place when a truthy `message_id` is stored, fall back to a fresh
send on `BadRequest`, drop the action on any other error, and persist the
snapshot and cache after a successful delivery. -/
def dispatch_action (env : DeliveryEnv) (cache : Cache) (store : Store)
    (a : Action) : DispatchResult :=
  match natTruthy a.message_id with
  | some m =>
    match env.edit with
    | .ok => dispatch_persist cache store a m false
    | .badRequest => dispatch_send env cache store a
    | .otherError => { cache := cache, store := store, delivered := none, sentNew := false }
  | none => dispatch_send env cache store a

/-! ### Session state and navigation (src/bot.py interactive handlers)

`context.user_data` is embedded as the `Session` record (absent keys are
`none`); the shared fingerprint cache and sqlite store are threaded in
`NavState`.  Channel and remote interactions become an explicit `Effect`
list; the remote fetch result, clock and channel outcomes come from a
`NavEnv` parameter. -/

structure Session where
  abcp_user_id : Option String
  orders_list : Option (List Order)
  orders_map : Option (List (String × Order))
  orders_number_to_token : Option Dict
  orders_token_to_number : Option Dict
  orders_filter : Option String
  orders_metrics : Option Metrics
  orders_last_synced : Option String
  orders_filtered_list : Option (List Order)
  orders_overview_text : Option String
  view : Option String
  active_chat_id : Option Nat
  active_message_id : Option Nat
  menu_message_id : Option Nat
  cleanup_message_ids : List Nat
deriving DecidableEq, Repr

/-- Reply markup attached to a channel message: inline buttons are
`(title, callback_data)` pairs (row chunking elided), the quick-action
reply keyboard is its list of labels. -/
inductive Markup
  | inline (buttons : List (String × String))
  | replyKeys (labels : List String)
  | noMarkup
deriving DecidableEq, Repr

/-- One channel / remote interaction performed by a handler. -/
inductive Effect
  | fetch
  | editMessage (text : String) (markup : Markup)
  | sendMessage (text : String) (markup : Markup)
  | deleteMessage
  | answer (text : Option String) (alert : Bool)
deriving DecidableEq, Repr

/-- Environment of one interactive request: the remote fetch result
(`get_orders_by_user_id` returns `[]` on failure and never raises), the
formatted clock, the incoming chat and callback-message ids, the id given
to newly sent messages, and whether message edits succeed (`false` models
a `BadRequest`). -/
structure NavEnv where
  fetched : List Order
  now : String
  chatId : Nat
  queryMsgId : Nat
  newId : Nat
  editOk : Bool
deriving DecidableEq, Repr

structure NavState where
  sess : Session
  cache : Cache
  store : Store
deriving DecidableEq, Repr

/-- `build_orders_keyboard` of src/bot.py lines 276-319 (2-per-row
chunking elided; button order preserved). -/
def build_orders_keyboard (orders : List Order) (number_to_token : Dict)
    (filter_mode : String) : Markup :=
  let orderButtons := orders.filterMap (fun order =>
    match strTruthy order.number with
    | none => none        -- `if not number: continue`
    | some number_str =>
      match strTruthy (aget number_to_token number_str) with
      | none => none      -- `if not token: continue`
      | some token =>
        let title := "№" ++ number_str ++
          (match order.sum with
           | some s => if s = "" then "" else " · " ++ s ++ " ₽"
           | none => "")
        some (title, "order:" ++ token))
  let filterButtons :=
    if number_to_token = ([] : Dict) then []
    else FILTER_MODES.map (fun p =>
      ((if p.1 = filter_mode then "✅ " else "") ++ p.2, "orders:filter:" ++ p.1))
  Markup.inline (orderButtons ++ filterButtons ++ [("🔄 Обновить список", "orders:refresh")])

/-- The two-button keyboard of the order-detail view (src/bot.py lines
1311-1321 and 1390-1400). -/
def detail_keyboard (tok : String) : Markup :=
  Markup.inline [("⬅️ Назад к списку", "orders:back"),
                 ("🔄 Обновить заказ", "order-refresh:" ++ tok)]

/-- `build_orders_menu_keyboard` of src/bot.py lines 423-442 (labels in
order). -/
def build_orders_menu_keyboard (current_filter : Option String) : Markup :=
  Markup.replyKeys
    (["📋 Мои заказы", "🔄 Обновить заказы"] ++
     ([("all", "Фильтр: Все"), ("active", "Фильтр: В работе"),
       ("unpaid", "Фильтр: Неоплаченные")].map
       (fun p => (if some p.1 = current_filter then "✅ " else "") ++ p.2)))

def MENU_HINT_TEXT : String := "👇 Быстрые действия доступны на клавиатуре ниже."

/-- `remember_cleanup_message` of src/bot.py lines 448-451. -/
def remember_cleanup_message (s : Session) (message_id : Nat) : Session :=
  if s.cleanup_message_ids.contains message_id then s
  else { s with cleanup_message_ids := s.cleanup_message_ids ++ [message_id] }

/-- `clear_user_chat` of src/bot.py lines 454-488 with the default empty
`preserve_ids`: delete every tracked bot message and forget the active and
menu message ids.  (The Python `set` iteration order is unspecified; the
delete effects carry no id, so only their number matters.) -/
def clear_user_chat (s : Session) : Session × List Effect :=
  let tracked := (s.cleanup_message_ids ++
    (match natTruthy s.active_message_id with | some m => [m] | none => []) ++
    (match natTruthy s.menu_message_id with | some m => [m] | none => [])).dedup
  ({ s with cleanup_message_ids := [], active_message_id := none, menu_message_id := none },
   tracked.map (fun _ => Effect.deleteMessage))

/-- `clean_and_reply` of src/bot.py lines 491-507. -/
def clean_and_reply (env : NavEnv) (s : Session) (text : String) (markup : Markup) :
    Session × List Effect :=
  let (s1, eff) := clear_user_chat s
  let s2 := remember_cleanup_message s1 env.newId
  (s2, eff ++ [Effect.sendMessage text markup])

/-- `try_delete_message` of src/bot.py lines 857-867 (failures are
swallowed). -/
def try_delete_message : List Effect := [Effect.deleteMessage]

/-- `send_overview_message` of src/bot.py lines 811-854: edit the active
overview message in place; on failure delete it, clear the chat and send a
fresh message.  (`safe_edit_message_text` treats the channel's
"not modified" answer as success; that case is folded into
`env.editOk = true`.) -/
def send_overview_message (env : NavEnv) (s : Session) (overview_text : String)
    (keyboard : Markup) (prefix_text : Option String) : Session × List Effect :=
  let chat_sess := { s with active_chat_id := pyOrNat s.active_chat_id (some env.chatId) }
  let full_text :=
    match prefix_text with
    | some p => p ++ "\n\n" ++ overview_text
    | none => overview_text
  let resend : Session → List Effect → Session × List Effect := fun s0 eff0 =>
    let (s1, eff1) := clear_user_chat s0
    let s2 := remember_cleanup_message { s1 with active_message_id := some env.newId } env.newId
    (s2, eff0 ++ eff1 ++ [Effect.sendMessage full_text keyboard])
  match natTruthy chat_sess.active_message_id with
  | some _prev =>
    if env.editOk then (chat_sess, [Effect.editMessage full_text keyboard])
    else resend chat_sess [Effect.editMessage full_text keyboard, Effect.deleteMessage]
  | none => resend chat_sess []

/-- `refresh_menu_keyboard` of src/bot.py lines 870-903. -/
def refresh_menu_keyboard (env : NavEnv) (s : Session) (chat_id : Option Nat)
    (message_text : Option String) : Session × List Effect :=
  match natTruthy (pyOrNat chat_id s.active_chat_id) with
  | none => (s, [])                  -- `if not target_chat: return`
  | some _target =>
    let keyboard := build_orders_menu_keyboard s.orders_filter
    let text := (pyOrStr message_text (some MENU_HINT_TEXT)).getD MENU_HINT_TEXT
    let delEff :=
      match natTruthy s.menu_message_id with
      | some _ => [Effect.deleteMessage]
      | none => []
    let s2 := remember_cleanup_message { s with menu_message_id := some env.newId } env.newId
    (s2, delEff ++ [Effect.sendMessage text keyboard])

/-- Result tuple of `sync_orders_context`
(`orders_list, filtered_orders, overview_text, keyboard`) together with
the updated state and effects. -/
structure SyncResult where
  st : NavState
  effects : List Effect
  orders_list : List Order
  filtered_orders : List Order
  overview_text : String
  keyboard : Markup
deriving DecidableEq, Repr

/-- `sync_orders_context` of src/bot.py lines 906-972: fetch and rebuild
the session caches when forced or cold, otherwise reuse them; recompute
metrics / filter / overview; returns `none` when no account is bound
(`if not user_id: return None`). -/
def sync_orders_context (aliases : String → Option String) (env : NavEnv)
    (st : NavState) (force_refresh : Bool) (filter_mode : Option String) :
    Option SyncResult :=
  match strTruthy st.sess.abcp_user_id with
  | none => none
  | some user_id =>
    let needs_fetch := force_refresh || st.sess.orders_list.isNone
    let fetched :=
      if needs_fetch then
        let orders_list := env.fetched      -- `orders or []` (fetch returns a list)
        let orders_map := orders_list.foldl
          (fun m o =>
            match strTruthy o.number with
            | some n => aset m n o
            | none => m) []
        let (n2t, t2n) := assign_order_tokens orders_list
          (st.sess.orders_number_to_token.getD [])
        let (cache2, _cache_changed) := update_cache_from_orders aliases st.cache orders_list
        let store2 := persist_orders_snapshot aliases st.store (some user_id) orders_list
        let sess2 := { st.sess with
          orders_list := some orders_list,
          orders_map := some orders_map,
          orders_number_to_token := some n2t,
          orders_token_to_number := some t2n,
          orders_last_synced := some env.now }
        ((⟨sess2, cache2, store2⟩ : NavState), [Effect.fetch], orders_list)
      else
        let orders_list := st.sess.orders_list.getD []
        let n2t0 := st.sess.orders_number_to_token.getD []
        -- `if not number_to_token and orders_list:` (re-derive missing tokens)
        if n2t0 = [] ∧ orders_list ≠ [] then
          let (n2t, t2n) := assign_order_tokens orders_list []
          ({ st with sess := { st.sess with
              orders_number_to_token := some n2t,
              orders_token_to_number := some t2n } }, [], orders_list)
        else (st, [], orders_list)
    let st1 := fetched.1
    let effs1 := fetched.2.1
    let orders_list := fetched.2.2
    -- `metrics = user_data.get("orders_metrics") if not needs_fetch else None`
    let metrics0 := if needs_fetch then none else st1.sess.orders_metrics
    let recompute : NavState → Metrics × NavState := fun s =>
      let m := calculate_orders_metrics orders_list
      (m, { s with sess := { s.sess with orders_metrics := some m } })
    let computed :=
      match metrics0 with
      | some m => if force_refresh then recompute st1 else (m, st1)
      | none => recompute st1
    let metrics := computed.1
    let st2 := computed.2
    let current_filter :=
      match pyOrStr filter_mode st2.sess.orders_filter with
      | some m =>
        if (aget FILTER_MODES m).isSome then m
        else if metrics.active ≠ 0 then "active" else "all"
      | none => if metrics.active ≠ 0 then "active" else "all"
    let sess3 := { st2.sess with orders_filter := some current_filter }
    let filtered_orders := filter_orders_for_view orders_list current_filter
    let sess4 := { sess3 with orders_filtered_list := some filtered_orders }
    let overview_text := format_orders_overview filtered_orders metrics current_filter
      sess4.orders_last_synced
    let sess5 := { sess4 with orders_overview_text := some overview_text }
    let keyboard := build_orders_keyboard filtered_orders
      (sess5.orders_number_to_token.getD []) current_filter
    some ⟨{ st2 with sess := sess5 }, effs1, orders_list, filtered_orders,
          overview_text, keyboard⟩

/-- The `"фильтр"` branch of `handle_text_message` (src/bot.py lines
1127-1147), reached when an account is bound and the text is none of the
earlier quick commands.  Returns `none` when the text does not mention a
filter.  (`lower_text.startswith("фильтр") or "фильтр" in lower_text`
collapses to the containment test.) -/
def handle_text_filter (aliases : String → Option String) (env : NavEnv)
    (st : NavState) (text : String) : Option (NavState × List Effect) :=
  let lower_text := pyLower text
  if pyIn "фильтр" lower_text then
    let mode :=
      if pyIn "в работе" lower_text then "active"
      else if pyIn "неоплач" lower_text then "unpaid"
      else "all"
    match sync_orders_context aliases env st false (some mode) with
    | none =>
      let (s1, eff1) := clean_and_reply env st.sess
        "⚠️ Не удалось применить фильтр. Попробуйте позже." Markup.noMarkup
      some ({ st with sess := s1 }, eff1)
    | some r =>
      let (s1, eff1) := send_overview_message env r.st.sess r.overview_text r.keyboard none
      let (s2, eff2) := refresh_menu_keyboard env s1 none none
      some ({ r.st with sess := s2 }, r.effects ++ eff1 ++ eff2 ++ try_delete_message)
  else none

/-- The `orders:back` branch of `handle_orders_callback` when the session
caches are missing or stale (sync path, src/bot.py lines 1176-1183 and
1201-1208). -/
def cb_back_sync (aliases : String → Option String) (env : NavEnv)
    (st : NavState) : NavState × List Effect :=
  match sync_orders_context aliases env st true none with
  | none => (st, [])
  | some r =>
    let (s2, eff2) := refresh_menu_keyboard env r.st.sess (some env.chatId) none
    ({ r.st with sess := { s2 with view := some "overview" } },
     r.effects ++ [Effect.editMessage r.overview_text r.keyboard,
       Effect.answer none false] ++ eff2)

/-- The `orders:back` branch of `handle_orders_callback` (src/bot.py
lines 1172-1208). -/
def cb_back (aliases : String → Option String) (env : NavEnv)
    (st : NavState) : NavState × List Effect :=
  match st.sess.orders_list, st.sess.orders_metrics, st.sess.orders_filter with
  | some orders, some metrics, some f =>
    if (aget FILTER_MODES f).isSome then
      let filtered_orders := filter_orders_for_view orders f
      let text_block := format_orders_overview filtered_orders metrics f
        st.sess.orders_last_synced
      let sess1 := { st.sess with
        orders_overview_text := some text_block,
        orders_filtered_list := some filtered_orders }
      let keyboard := build_orders_keyboard filtered_orders
        (sess1.orders_number_to_token.getD []) f
      let (s2, eff2) := refresh_menu_keyboard env sess1 (some env.chatId) none
      ({ st with sess := { s2 with view := some "overview" } },
       [Effect.editMessage text_block keyboard, Effect.answer none false] ++ eff2)
    else cb_back_sync aliases env st
  | _, _, _ => cb_back_sync aliases env st

/-- The `orders:refresh` branch of `handle_orders_callback` (src/bot.py
lines 1210-1222). -/
def cb_refresh (aliases : String → Option String) (env : NavEnv)
    (st : NavState) : NavState × List Effect :=
  match sync_orders_context aliases env st true none with
  | none => (st, [])
  | some r =>
    let (s2, eff2) := refresh_menu_keyboard env r.st.sess (some env.chatId) none
    ({ r.st with sess := { s2 with view := some "overview" } },
     r.effects ++ [Effect.editMessage r.overview_text r.keyboard,
       Effect.answer (some "Список обновлён ✅") false] ++ eff2)

/-- The `orders:filter:` branch of `handle_orders_callback` (src/bot.py
lines 1224-1270). -/
def cb_filter (aliases : String → Option String) (env : NavEnv)
    (st : NavState) (mode : String) : NavState × List Effect :=
  if (aget FILTER_MODES mode).isNone then
    (st, [Effect.answer (some "Неизвестный фильтр") true])
  else if st.sess.orders_filter = some mode then
    (st, [Effect.answer (some "Этот фильтр уже активен ✅") false])
  else
    let synced :=
      match st.sess.orders_list with
      | some _ => some (st, ([] : List Effect))
      | none =>
        match sync_orders_context aliases env st true none with
        | none => none
        | some r => some (r.st, r.effects)
    match synced with
    | none => (st, [])              -- `if not synced: return`
    | some (st1, effs1) =>
      let orders := st1.sess.orders_list.getD []
      let computed :=
        match st1.sess.orders_metrics with
        | some m => (m, st1)
        | none =>
          let m := calculate_orders_metrics orders
          (m, { st1 with sess := { st1.sess with orders_metrics := some m } })
      let metrics := computed.1
      let st2 := computed.2
      let sess3 := { st2.sess with orders_filter := some mode }
      let filtered_orders := filter_orders_for_view orders mode
      let overview_text := format_orders_overview filtered_orders metrics mode
        sess3.orders_last_synced
      let sess4 := { sess3 with
        orders_overview_text := some overview_text,
        orders_filtered_list := some filtered_orders }
      let keyboard := build_orders_keyboard filtered_orders
        (sess4.orders_number_to_token.getD []) mode
      let (s5, eff5) := refresh_menu_keyboard env sess4 (some env.chatId) none
      ({ st2 with sess := { s5 with view := some "overview" } },
       effs1 ++ [Effect.editMessage overview_text keyboard,
         Effect.answer (some "Фильтр применён ✅") false] ++ eff5)

/-- The `order-refresh:` branch of `handle_orders_callback` (src/bot.py
lines 1272-1328). -/
def cb_order_refresh (aliases : String → Option String) (env : NavEnv)
    (st : NavState) (token : String) : NavState × List Effect :=
  let t2n := st.sess.orders_token_to_number.getD []
  let resolved :=
    match strTruthy (aget t2n token) with
    | some n => some (st, ([] : List Effect), some n)
    | none =>
      match sync_orders_context aliases env st true none with
      | none => none
      | some r =>
        some (r.st, r.effects,
          strTruthy (aget (r.st.sess.orders_token_to_number.getD []) token))
  match resolved with
  | none => (st, [])
  | some (st1, effs1, none) =>
    (st1, effs1 ++ [Effect.answer (some "Заказ не найден") true])
  | some (st1, effs1, some number) =>
    match sync_orders_context aliases env st1 true none with
    | none => (st1, effs1)
    | some r2 =>
      let st2 := r2.st
      match aget (st2.sess.orders_map.getD []) number with
      | none =>
        let current_filter := st2.sess.orders_filter.getD "all"
        let keyboard := build_orders_keyboard (st2.sess.orders_filtered_list.getD [])
          (st2.sess.orders_number_to_token.getD []) current_filter
        ({ st2 with sess := { st2.sess with view := some "overview" } },
         effs1 ++ r2.effects ++
           [Effect.editMessage "❌ Заказ не найден. Возможно, он был закрыт или удалён." keyboard,
            Effect.answer (some "Заказ не найден") true])
      | some order =>
        -- `number_to_token.get(str(order.get("number")))`; Python renders a
        -- missing number as the string "None"
        let refreshed_token := aget (st2.sess.orders_number_to_token.getD [])
          (order.number.getD "None")
        let rt := match strTruthy refreshed_token with | some t => t | none => token
        ({ st2 with sess := { st2.sess with view := some ("order:" ++ number) } },
         effs1 ++ r2.effects ++
           [Effect.editMessage (format_order_detail aliases order) (detail_keyboard rt),
            Effect.answer (some "Детали обновлены ✅") false])

/-- The `order:` (select) branch of `handle_orders_callback` (src/bot.py
lines 1330-1407): resolve the token, on a miss force one resync and retry
once, then render the detail view or a "not found" overview. -/
def cb_select (aliases : String → Option String) (env : NavEnv)
    (st : NavState) (token : String) : NavState × List Effect :=
  let t2n := st.sess.orders_token_to_number.getD []
  let resolved :=
    match strTruthy (aget t2n token) with
    | some n => some (st, ([] : List Effect), some n)
    | none =>
      match sync_orders_context aliases env st true none with
      | none => none
      | some r =>
        some (r.st, r.effects,
          strTruthy (aget (r.st.sess.orders_token_to_number.getD []) token))
  match resolved with
  | none => (st, [])
  | some (st1, effs1, none) =>
    let current_filter := st1.sess.orders_filter.getD "all"
    let keyboard := build_orders_keyboard (st1.sess.orders_filtered_list.getD [])
      (st1.sess.orders_number_to_token.getD []) current_filter
    ({ st1 with sess := { st1.sess with view := some "overview" } },
     effs1 ++ [Effect.editMessage
         "❌ Не удалось найти заказ. Обновите список и попробуйте снова." keyboard,
       Effect.answer (some "Заказ не найден") true])
  | some (st1, effs1, some number) =>
    let found :=
      match aget (st1.sess.orders_map.getD []) number with
      | some o => some (st1, ([] : List Effect), some o)
      | none =>
        match sync_orders_context aliases env st1 true none with
        | none => none
        | some r => some (r.st, r.effects, aget (r.st.sess.orders_map.getD []) number)
    match found with
    | none => (st1, effs1)
    | some (st2, effs2, none) =>
      let current_filter := st2.sess.orders_filter.getD "all"
      let keyboard := build_orders_keyboard (st2.sess.orders_filtered_list.getD [])
        (st2.sess.orders_number_to_token.getD []) current_filter
      ({ st2 with sess := { st2.sess with view := some "overview" } },
       effs1 ++ effs2 ++ [Effect.editMessage
           "❌ Не удалось найти заказ. Обновите список и попробуйте снова." keyboard,
         Effect.answer (some "Заказ не найден") true])
    | some (st2, effs2, some order) =>
      let refreshed_token := aget (st2.sess.orders_number_to_token.getD [])
        (order.number.getD "None")
      let rt := match strTruthy refreshed_token with | some t => t | none => token
      ({ st2 with sess := { st2.sess with view := some ("order:" ++ number) } },
       effs1 ++ effs2 ++
         [Effect.editMessage (format_order_detail aliases order) (detail_keyboard rt),
          Effect.answer none false])

/-- `handle_orders_callback` of src/bot.py lines 1161-1409: record the
active chat and message, then dispatch on the (already stripped) callback
payload. -/
def handle_orders_callback (aliases : String → Option String) (env : NavEnv)
    (st0 : NavState) (data : String) : NavState × List Effect :=
  let st := { st0 with sess := { st0.sess with
    active_chat_id := some env.chatId,
    active_message_id := some env.queryMsgId } }
  let d := data.data
  if d = "orders:back".data then cb_back aliases env st
  else if d = "orders:refresh".data then cb_refresh aliases env st
  else if chBegins "orders:filter:".data d then
    cb_filter aliases env st (String.mk (d.drop 14))
  else if chBegins "order-refresh:".data d then
    cb_order_refresh aliases env st (String.mk (d.drop 14))
  else if chBegins "order:".data d then
    cb_select aliases env st (String.mk (d.drop 6))
  else (st, [Effect.answer none false])

/-! ### Concrete fixtures used by example runs and counterexamples -/

/-- An empty `OFFICE_ALIASES` configuration. -/
def no_aliases : String → Option String := fun _ => none

def position_in_transit : Position := ⟨none, none, some "в пути", none, none⟩

def position_done : Position := ⟨none, none, some "готово", none, none⟩

/-- The spec's example order `{id:"100", paid:false, items:[{status:"в пути"}]}`. -/
def order100 : Order := ⟨some "100", false, none, none, none, none, none, [position_in_transit]⟩

/-- The spec's example order `{id:"101", paid:true, items:[{status:"готово"}]}`. -/
def order101 : Order := ⟨some "101", true, none, none, none, none, none, [position_done]⟩

def order5 : Order := ⟨some "5", false, none, none, none, none, none, []⟩

def order7 : Order := ⟨some "7", false, none, none, none, none, none, []⟩

def order8 : Order := ⟨some "8", false, none, none, none, none, none, []⟩

/-- An order whose `number` field holds the falsy empty string. -/
def order_empty_number : Order := ⟨some "", false, none, none, none, none, none, []⟩

/-- An order whose `number` field is missing / `None`. -/
def order_no_number : Order := ⟨none, false, none, none, none, none, none, []⟩

def wd_user_1 : WDUser := ⟨some 1, none, some "u", none⟩

def sample_action : Action := ⟨1, "u", "5", some 3, "txt", "raw"⟩

/-- A warm interactive session: one order, token "0", filter `all`. -/
def sample_session : Session :=
  ⟨some "u7", some [order100], some [("100", order100)], some [("100", "0")],
   some [("0", "100")], some "all", some ⟨1, 1, 1⟩, some "t0", some [order100],
   none, some "overview", some 9, some 5, some 6, []⟩

def sample_env : NavEnv := ⟨[], "t1", 9, 5, 77, true⟩

def sample_nav : NavState := ⟨sample_session, [], []⟩

end BotAbcp

namespace BotAbcp

/-! ### Helper lemmas -/

theorem aget_aset_self {α : Type} (d : List (String × α)) (k : String) (v : α) :
    aget (aset d k v) k = some v := by
  induction d with
  | nil => simp [aget, aset]
  | cons hd tl ih =>
    obtain ⟨k2, v2⟩ := hd
    by_cases h : k2 = k
    · simp [aget, aset, h]
    · simp [aget, aset, h, ih]

theorem aget_aset_ne {α : Type} (d : List (String × α)) (k k2 : String) (v : α)
    (h : k ≠ k2) : aget (aset d k v) k2 = aget d k2 := by
  induction d with
  | nil => simp [aget, aset, h]
  | cons hd tl ih =>
    obtain ⟨k3, v3⟩ := hd
    by_cases h3 : k3 = k
    · subst h3
      simp [aget, aset, h]
    · simp only [aset, if_neg h3]
      by_cases h4 : k3 = k2
      · simp [aget, h4]
      · simp [aget, h4, ih]

theorem toHexAux_congr :
    ∀ f1 f2 n, n ≤ f1 → n ≤ f2 → toHexAux f1 n = toHexAux f2 n := by
  intro f1
  induction f1 with
  | zero =>
    intro f2 n h1 _
    interval_cases n
    cases f2 <;> simp [toHexAux]
  | succ f ih =>
    intro f2 n h1 h2
    match n, f2 with
    | 0, f2 => cases f2 <;> simp [toHexAux]
    | m + 1, 0 => omega
    | m + 1, f2 + 1 =>
      simp only [toHexAux]
      have hdiv : (m + 1) / 16 ≤ m := by
        have := Nat.div_lt_self (Nat.succ_pos m) (by norm_num : 1 < 16)
        omega
      rw [ih f2 ((m + 1) / 16) (by omega) (by omega)]

theorem toHexAux_length :
    ∀ n L, 16 ^ L ≤ n → L + 1 ≤ (toHexAux n n).length := by
  intro n
  induction n using Nat.strong_induction_on with
  | _ n ih =>
    intro L hL
    have hn : 1 ≤ n := le_trans (Nat.one_le_pow _ _ (by norm_num)) hL
    obtain ⟨m, rfl⟩ : ∃ m, n = m + 1 := ⟨n - 1, by omega⟩
    simp only [toHexAux, List.length_append, List.length_singleton]
    cases L with
    | zero => omega
    | succ L =>
      have hq : 16 ^ L ≤ (m + 1) / 16 := by
        rw [Nat.le_div_iff_mul_le (by norm_num : 0 < 16)]
        calc 16 ^ L * 16 = 16 ^ (L + 1) := (pow_succ 16 L).symm
        _ ≤ m + 1 := hL
      have hq1 : 1 ≤ (m + 1) / 16 := le_trans (Nat.one_le_pow _ _ (by norm_num)) hq
      have hqm : (m + 1) / 16 ≤ m := by
        have := Nat.div_lt_self (Nat.succ_pos m) (by norm_num : 1 < 16)
        omega
      rw [toHexAux_congr m ((m + 1) / 16) ((m + 1) / 16) hqm (le_refl _)]
      have := ih ((m + 1) / 16) (by omega) L hq
      omega

theorem maxStrLen_ge {s : String} {l : List String} (h : s ∈ l) :
    s.length ≤ maxStrLen l := by
  induction l with
  | nil => cases h
  | cons hd tl ih =>
    rcases List.mem_cons.mp h with h1 | h1
    · subst h1
      simp [maxStrLen]
    · simp only [maxStrLen, List.foldr_cons]
      exact le_trans (ih h1) (le_max_right _ _)

theorem toHex_length_of_le {n L : Nat} (h : 16 ^ L ≤ n) :
    L + 1 ≤ (toHex n).length := by
  have hn : n ≠ 0 := by
    have := Nat.one_le_pow L 16 (by norm_num)
    omega
  simp only [toHex, if_neg hn]
  exact toHexAux_length n L h

theorem toHex_long_notin (used : List String) (n : Nat)
    (h : 16 ^ maxStrLen used ≤ n) : used.contains (toHex n) = false := by
  by_contra hcon
  rw [Bool.not_eq_false] at hcon
  have hmem : toHex n ∈ used := by
    obtain ⟨s, hs, hbeq⟩ := List.contains_iff_exists_mem_beq.mp hcon
    rwa [show s = toHex n from (beq_iff_eq.mp hbeq).symm] at hs
  have h1 := maxStrLen_ge hmem
  have h2 := toHex_length_of_le h
  omega

theorem next_token_search_fresh (used : List String) :
    ∀ fuel counter,
      (∃ j, j ≤ fuel ∧ used.contains (toHex (counter + j)) = false) →
      used.contains (next_token_search used counter fuel).1 = false := by
  intro fuel
  induction fuel with
  | zero =>
    intro counter ⟨j, hj, hfree⟩
    interval_cases j
    simpa [next_token_search] using hfree
  | succ f ih =>
    intro counter ⟨j, hj, hfree⟩
    by_cases hbusy : used.contains (toHex counter) = true
    · simp only [next_token_search, if_pos hbusy]
      apply ih
      match j, hfree with
      | 0, hfree => rw [Nat.add_zero] at hfree; rw [hfree] at hbusy; cases hbusy
      | j + 1, hfree =>
        exact ⟨j, by omega, by rwa [show counter + 1 + j = counter + (j + 1) by omega]⟩
    · rw [Bool.not_eq_true] at hbusy
      have hb2 : toHex counter ∉ used := by simpa using hbusy
      simp [next_token_search, hb2]

theorem next_token_fresh (used : List String) (counter : Nat) :
    used.contains (next_token used counter).1 = false := by
  apply next_token_search_fresh
  exact ⟨16 ^ maxStrLen used, le_refl _,
    toHex_long_notin used _ (Nat.le_add_left _ _)⟩

theorem toHex_ne_empty (n : Nat) : toHex n ≠ "" := by
  by_cases h : n = 0
  · subst h; simp [toHex]
  · simp only [toHex, if_neg h]
    obtain ⟨m, rfl⟩ : ∃ m, n = m + 1 := ⟨n - 1, by omega⟩
    simp only [toHexAux]
    intro hcon
    have : (toHexAux m ((m + 1) / 16) ++ [hexDigit ((m + 1) % 16)]) = ([] : List Char) :=
      congrArg String.data hcon
    simp at this

theorem next_token_search_shape (used : List String) :
    ∀ fuel counter, ∃ k, next_token_search used counter fuel = (toHex k, k + 1) := by
  intro fuel
  induction fuel with
  | zero => intro counter; exact ⟨counter, rfl⟩
  | succ f ih =>
    intro counter
    by_cases hbusy : used.contains (toHex counter) = true
    · simp only [next_token_search, if_pos hbusy]
      exact ih (counter + 1)
    · rw [Bool.not_eq_true] at hbusy
      have hb2 : toHex counter ∉ used := by simpa using hbusy
      exact ⟨counter, by simp [next_token_search, hb2]⟩

theorem next_token_truthy (used : List String) (counter : Nat) :
    (next_token used counter).1 ≠ "" := by
  obtain ⟨k, hk⟩ := next_token_search_shape used (16 ^ maxStrLen used) counter
  rw [next_token, hk]
  exact toHex_ne_empty k

/-! ### C1 — first-sighting suppression -/

/-- C1 (counterexample): the claim "an order with no prior snapshot in the
durable store always gets its fresh fingerprint persisted as a baseline"
fails.  With order 5's fingerprint already in the in-memory cache but no
snapshot stored, the detector skips the order at the unchanged fast path:
it emits no action, but it also writes nothing to the store, so no
baseline snapshot is created. -/
theorem first_sighting_persist_counterexample :
    (get_order_status ([] : Store) "5" = none) ∧
    (build_changes_actions_for_user no_aliases wd_user_1 [order5]
        [("5", format_order_status no_aliases order5)] []).actions = [] ∧
    (build_changes_actions_for_user no_aliases wd_user_1 [order5]
        [("5", format_order_status no_aliases order5)] []).store = [] ∧
    ¬ (get_order_status
        (build_changes_actions_for_user no_aliases wd_user_1 [order5]
          [("5", format_order_status no_aliases order5)] []).store "5"
        = some (format_order_status no_aliases order5)) := by
  decide

/-- C1 (amended): when the detector classifies an order that has no prior
snapshot in the store, it never emits a notification action, regardless of
the order's status; and it persists the fresh fingerprint as a baseline
(to the store and the cache) whenever the fingerprint also differs from
the in-memory cache — when the cache already equals it the order is
skipped with no store write. -/
theorem wd_first_sighting_no_action (aliases : String → Option String)
    (chat_id : Nat) (user_id : String) (st : WDState) (o : Order) (n : String)
    (hn : o.number = some n)
    (hsnap : get_order_status st.store n = none) :
    (wd_process_order aliases chat_id user_id st o).actions = st.actions ∧
    (aget st.cache n ≠ some (format_order_status aliases o) →
      get_order_status (wd_process_order aliases chat_id user_id st o).store n
        = some (format_order_status aliases o) ∧
      aget (wd_process_order aliases chat_id user_id st o).cache n
        = some (format_order_status aliases o)) := by
  simp only [wd_process_order, hn]
  by_cases hc : aget st.cache n = some (format_order_status aliases o)
  · rw [if_pos (Or.inl hc), if_neg (not_not_intro hc)]
    exact ⟨rfl, fun hcon => absurd hc hcon⟩
  · have hcond : ¬ (aget st.cache n = some (format_order_status aliases o) ∨
        get_order_status st.store n = some (format_order_status aliases o)) := by
      rintro (h | h)
      · exact hc h
      · rw [hsnap] at h; cases h
    rw [if_neg hcond, if_pos (by rw [hsnap])]
    refine ⟨rfl, fun _ => ⟨?_, ?_⟩⟩
    · simp only [get_order_status, update_order_status, aget_aset_self, Option.map_some']
    · exact aget_aset_self st.cache n (format_order_status aliases o)

/-- Witness for the C1 theorem at a concrete first sighting: empty cache
and store, order 5. -/
theorem wd_first_sighting_no_action_witness :
    order5.number = some "5" ∧ get_order_status ([] : Store) "5" = none ∧
    ((wd_process_order no_aliases 1 "u" ⟨[], [], [], false⟩ order5).actions = [] ∧
     (aget ([] : Cache) "5" ≠ some (format_order_status no_aliases order5) →
       get_order_status (wd_process_order no_aliases 1 "u" ⟨[], [], [], false⟩ order5).store "5"
         = some (format_order_status no_aliases order5) ∧
       aget (wd_process_order no_aliases 1 "u" ⟨[], [], [], false⟩ order5).cache "5"
         = some (format_order_status no_aliases order5))) :=
  ⟨rfl, rfl,
   wd_first_sighting_no_action no_aliases 1 "u" ⟨[], [], [], false⟩ order5 "5" rfl rfl⟩

/-! ### C6 — edit fallback and persistence in the dispatcher -/

/-- C6: for an action carrying a truthy stored message reference, if the
in-place edit fails with `BadRequest` (in particular because the target
message no longer exists) the dispatcher sends a new message; after any
successful delivery (edit or send) the snapshot holds the new fingerprint
and the message reference of the message actually delivered, and the
fingerprint cache holds the new fingerprint. -/
theorem dispatch_edit_fallback (env : DeliveryEnv) (cache : Cache) (store : Store)
    (a : Action) (m : Nat) (hm : a.message_id = some m) (hm0 : m ≠ 0) :
    (env.edit = EditResult.badRequest → ∀ k, env.send = some k →
      (dispatch_action env cache store a).sentNew = true ∧
      get_order_status (dispatch_action env cache store a).store a.order_number
        = some a.raw_text ∧
      get_order_message (dispatch_action env cache store a).store a.order_number
        = some k ∧
      aget (dispatch_action env cache store a).cache a.order_number
        = some a.raw_text) ∧
    (env.edit = EditResult.ok →
      (dispatch_action env cache store a).delivered = some m ∧
      get_order_status (dispatch_action env cache store a).store a.order_number
        = some a.raw_text ∧
      get_order_message (dispatch_action env cache store a).store a.order_number
        = some m ∧
      aget (dispatch_action env cache store a).cache a.order_number
        = some a.raw_text) := by
  have hmt : natTruthy a.message_id = some m := by
    rw [hm]; simp [natTruthy, hm0]
  constructor
  · intro hedit k hsend
    simp [dispatch_action, hmt, hedit, dispatch_send, hsend, dispatch_persist,
      get_order_status, get_order_message, update_order_status, aget_aset_self]
  · intro hedit
    simp [dispatch_action, hmt, hedit, dispatch_persist,
      get_order_status, get_order_message, update_order_status, aget_aset_self]

/-- Witness for the C6 theorem: both scenarios at a concrete action with
stored message id 3 — edit fails and the new message gets id 9, and edit
succeeds in place. -/
theorem dispatch_edit_fallback_witness :
    ((dispatch_action ⟨EditResult.badRequest, some 9⟩ [] [] sample_action).sentNew = true ∧
     get_order_status (dispatch_action ⟨EditResult.badRequest, some 9⟩ [] [] sample_action).store "5"
       = some "raw" ∧
     get_order_message (dispatch_action ⟨EditResult.badRequest, some 9⟩ [] [] sample_action).store "5"
       = some 9 ∧
     aget (dispatch_action ⟨EditResult.badRequest, some 9⟩ [] [] sample_action).cache "5"
       = some "raw") ∧
    ((dispatch_action ⟨EditResult.ok, some 9⟩ [] [] sample_action).delivered = some 3 ∧
     get_order_status (dispatch_action ⟨EditResult.ok, some 9⟩ [] [] sample_action).store "5"
       = some "raw" ∧
     get_order_message (dispatch_action ⟨EditResult.ok, some 9⟩ [] [] sample_action).store "5"
       = some 3 ∧
     aget (dispatch_action ⟨EditResult.ok, some 9⟩ [] [] sample_action).cache "5"
       = some "raw") :=
  ⟨(dispatch_edit_fallback ⟨EditResult.badRequest, some 9⟩ [] [] sample_action 3
      rfl (by decide)).1 rfl 9 rfl,
   (dispatch_edit_fallback ⟨EditResult.ok, some 9⟩ [] [] sample_action 3
      rfl (by decide)).2 rfl⟩

/-! ### C7 — filters and metrics -/

/-- C7: on the spec's example list, `filter(all)` keeps both orders in
input order, `filter(active)` and `filter(unpaid)` keep only order "100",
and the metrics are `{total:2, active:1, unpaid:1}`; in general an order
is active iff some line item's status contains no closed-state keyword
(case-insensitive), or, with no line items, iff it is not paid, and unpaid
iff its payment flag is false. -/
theorem filters_and_metrics :
    (filter_orders_for_view [order100, order101] "all" = [order100, order101]) ∧
    (filter_orders_for_view [order100, order101] "active" = [order100]) ∧
    (filter_orders_for_view [order100, order101] "unpaid" = [order100]) ∧
    (calculate_orders_metrics [order100, order101] = ⟨2, 1, 1⟩) ∧
    (∀ o : Order, is_order_active o = true ↔
      (if o.positions = [] then o.paid = false
       else ∃ p ∈ o.positions,
         ∀ kw ∈ DONE_KEYWORDS, pyIn kw (pyLower (p.status.getD "")) = false)) ∧
    (∀ o : Order, is_order_unpaid o = true ↔ o.paid = false) := by
  refine ⟨by decide, by decide, by decide, by decide, ?_, ?_⟩
  · intro o
    unfold is_order_active
    by_cases hp : o.positions = []
    · rw [if_pos hp, if_pos hp]
      simp
    · rw [if_neg hp, if_neg hp]
      simp only [List.any_eq_true, Bool.not_eq_true', is_position_closed,
        List.any_eq_false, Bool.not_eq_true]
  · intro o
    simp [is_order_unpaid]

/-! ### C2 — idempotence of a second polling pass after delivery -/

theorem dispatch_action_cache_of_delivered (env : DeliveryEnv) (cache : Cache)
    (store : Store) (a : Action)
    (h : (dispatch_action env cache store a).delivered ≠ none) :
    (dispatch_action env cache store a).cache = aset cache a.order_number a.raw_text := by
  cases hnt : natTruthy a.message_id with
  | none =>
    cases hs : env.send with
    | none => simp [dispatch_action, dispatch_send, hnt, hs] at h
    | some k => simp [dispatch_action, dispatch_send, dispatch_persist, hnt, hs]
  | some m =>
    cases he : env.edit with
    | ok => simp [dispatch_action, dispatch_persist, hnt, he]
    | badRequest =>
      cases hs : env.send with
      | none => simp [dispatch_action, dispatch_send, hnt, he, hs] at h
      | some k => simp [dispatch_action, dispatch_send, dispatch_persist, hnt, he, hs]
    | otherError => simp [dispatch_action, hnt, he] at h

theorem wd_process_order_keeps (aliases : String → Option String) (chat : Nat)
    (uid : String) (st : WDState) (o : Order) (n fp : String)
    (hsame : o.number = some n → format_order_status aliases o = fp)
    (hcache : aget st.cache n = some fp) :
    aget (wd_process_order aliases chat uid st o).cache n = some fp ∧
    ((∀ b ∈ st.actions, b.order_number ≠ n) →
      ∀ b ∈ (wd_process_order aliases chat uid st o).actions, b.order_number ≠ n) := by
  cases hnum : o.number with
  | none => simp only [wd_process_order, hnum]; exact ⟨hcache, fun h => h⟩
  | some m =>
    simp only [wd_process_order, hnum]
    by_cases hmn : m = n
    · subst hmn
      have hfp : format_order_status aliases o = fp := hsame hnum
      rw [hfp, if_pos (Or.inl hcache), if_neg (not_not_intro hcache)]
      exact ⟨hcache, fun h => h⟩
    · have hget : ∀ v, aget (aset st.cache m v) n = aget st.cache n :=
        fun v => aget_aset_ne st.cache m n v hmn
      by_cases h1 : aget st.cache m = some (format_order_status aliases o) ∨
          get_order_status st.store m = some (format_order_status aliases o)
      · rw [if_pos h1]
        by_cases h2 : aget st.cache m ≠ some (format_order_status aliases o)
        · rw [if_pos h2]
          exact ⟨by rw [hget, hcache], fun h => h⟩
        · rw [if_neg h2]
          exact ⟨hcache, fun h => h⟩
      · rw [if_neg h1]
        by_cases h3 : (match get_order_status st.store m with
            | none => true
            | some s => decide (s = "" ∨ pyIn "Заказ №" s = false)) = true
        · rw [if_pos h3]
          exact ⟨by rw [hget, hcache], fun h => h⟩
        · rw [if_neg h3]
          refine ⟨hcache, fun h b hb => ?_⟩
          rcases List.mem_append.mp hb with hb | hb
          · exact h b hb
          · rcases List.mem_singleton.mp hb with rfl
            simpa using hmn

theorem wd_fold_no_action (aliases : String → Option String) (chat : Nat)
    (uid : String) (n fp : String) :
    ∀ (orders : List Order) (st : WDState),
      (∀ o ∈ orders, o.number = some n → format_order_status aliases o = fp) →
      aget st.cache n = some fp →
      (∀ b ∈ st.actions, b.order_number ≠ n) →
      ∀ b ∈ (orders.foldl (wd_process_order aliases chat uid) st).actions,
        b.order_number ≠ n := by
  intro orders
  induction orders with
  | nil => intro st _ _ hacts; simpa using hacts
  | cons o rest ih =>
    intro st hsame hcache hacts
    simp only [List.foldl_cons]
    obtain ⟨hc2, ha2⟩ := wd_process_order_keeps aliases chat uid st o n fp
      (hsame o (List.mem_cons_self o rest)) hcache
    exact ih _ (fun o2 h2 => hsame o2 (List.mem_cons_of_mem o h2)) hc2 (ha2 hacts)

/-- C2: if dispatching a detected change succeeds (the new fingerprint is
persisted to the store and the in-memory cache), then an immediately
following polling pass in which every occurrence of the order renders the
same fingerprint emits no notification action for that order. -/
theorem second_pass_emits_nothing (aliases : String → Option String)
    (u : WDUser) (env : DeliveryEnv) (cache : Cache) (store : Store)
    (a : Action) (orders2 : List Order)
    (hdeliv : (dispatch_action env cache store a).delivered ≠ none)
    (hsame : ∀ o ∈ orders2, o.number = some a.order_number →
      format_order_status aliases o = a.raw_text) :
    ∀ b ∈ (build_changes_actions_for_user aliases u orders2
        (dispatch_action env cache store a).cache
        (dispatch_action env cache store a).store).actions,
      b.order_number ≠ a.order_number := by
  have hcache : aget (dispatch_action env cache store a).cache a.order_number
      = some a.raw_text := by
    rw [dispatch_action_cache_of_delivered env cache store a hdeliv]
    exact aget_aset_self _ _ _
  unfold build_changes_actions_for_user
  cases hchat : natTruthy (pyOrNat u.telegram_id u.chat_id) with
  | none => simp
  | some chat =>
    cases huid : strTruthy (pyOrStr u.user_id u.abcp_user_id) with
    | none => simp
    | some uid =>
      exact wd_fold_no_action aliases chat uid a.order_number a.raw_text orders2
        ⟨(dispatch_action env cache store a).cache,
         (dispatch_action env cache store a).store, [], false⟩
        hsame hcache (by simp)

/-- Witness for the C2 theorem: order 5 is delivered successfully (edit in
place), then a second pass over the same unchanged order produces no
action for it. -/
theorem second_pass_emits_nothing_witness :
    ((build_changes_actions_for_user no_aliases wd_user_1 [order5]
        (dispatch_action ⟨EditResult.ok, none⟩ [] []
          ⟨1, "u", "5", some 3, "txt", format_order_status no_aliases order5⟩).cache
        (dispatch_action ⟨EditResult.ok, none⟩ [] []
          ⟨1, "u", "5", some 3, "txt", format_order_status no_aliases order5⟩).store).actions.all
      (fun b => b.order_number ≠ "5")) = true :=
  List.all_eq_true.mpr (fun b hb => by
    simpa using second_pass_emits_nothing no_aliases wd_user_1 ⟨EditResult.ok, none⟩ [] []
      ⟨1, "u", "5", some 3, "txt", format_order_status no_aliases order5⟩ [order5]
      (by decide) (by decide) b hb)

/-! ### C10 — handling of missing and falsy order numbers -/

theorem strTruthy_ne_empty {x : Option String} {s : String}
    (h : strTruthy x = some s) : s ≠ "" := by
  cases x with
  | none => cases h
  | some v =>
    by_cases hv : v = ""
    · rw [strTruthy, if_pos hv] at h; cases h
    · rw [strTruthy, if_neg hv] at h
      cases h
      exact hv

theorem assign_fold_n2t_empty (em : Dict) :
    ∀ (orders : List Order) (st : TokenState),
      aget st.number_to_token "" = none →
      aget ((orders.foldl (assign_step em) st).number_to_token) "" = none := by
  intro orders
  induction orders with
  | nil => intro st h; simpa using h
  | cons o rest ih =>
    intro st h
    simp only [List.foldl_cons]
    apply ih
    cases hn : strTruthy o.number with
    | none => simpa [assign_step, hn] using h
    | some num =>
      simp only [assign_step, hn]
      rw [aget_aset_ne _ _ _ _ (strTruthy_ne_empty hn)]
      exact h

theorem assign_fold_t2n_truthy (em : Dict) :
    ∀ (orders : List Order) (st : TokenState),
      (∀ t n, aget st.token_to_number t = some n → n ≠ "") →
      ∀ t n, aget ((orders.foldl (assign_step em) st).token_to_number) t = some n →
        n ≠ "" := by
  intro orders
  induction orders with
  | nil => intro st h; simpa using h
  | cons o rest ih =>
    intro st h
    simp only [List.foldl_cons]
    apply ih
    cases hn : strTruthy o.number with
    | none => simpa [assign_step, hn] using h
    | some num =>
      intro t n ht
      simp only [assign_step, hn] at ht
      by_cases htp : (assign_pick em st num).1 = t
      · rw [← htp, aget_aset_self] at ht
        cases ht
        exact strTruthy_ne_empty hn
      · rw [aget_aset_ne _ _ _ _ htp] at ht
        exact h t n ht

theorem persist_fold_other (aliases : String → Option String) (uid k : String)
    (hk : k = "") :
    ∀ (orders : List Order) (acc : Store),
      aget (orders.foldl (persist_order_step aliases uid) acc) k = aget acc k := by
  intro orders
  induction orders with
  | nil => intro acc; simp
  | cons o rest ih =>
    intro acc
    simp only [List.foldl_cons]
    rw [ih]
    cases hn : strTruthy o.number with
    | none => simp [persist_order_step, hn]
    | some num =>
      simp only [persist_order_step, hn, update_order_status]
      rw [aget_aset_ne]
      rw [hk]
      exact strTruthy_ne_empty hn

theorem update_cache_fold_skips (aliases : String → Option String) :
    ∀ (orders : List Order) (acc : Cache × Bool),
      (∀ o ∈ orders, o.number = none) →
      orders.foldl (update_cache_step aliases) acc = acc := by
  intro orders
  induction orders with
  | nil => intro acc _; rfl
  | cons o rest ih =>
    intro acc h
    simp only [List.foldl_cons]
    rw [show update_cache_step aliases acc o = acc from by
      simp [update_cache_step, h o (List.mem_cons_self o rest)]]
    exact ih acc (fun o2 h2 => h o2 (List.mem_cons_of_mem o h2))

/-- C10 (amended): token allocation and snapshot persistence skip orders
whose number is missing or falsy — the token maps never hold a falsy
order number on either side and the store is never written under the
empty-string key — while the fingerprint-cache updater and the change
detector skip only orders whose number is missing (`None`): an order with
an empty-string number is still cached and classified (see the
counterexample). -/
theorem falsy_number_handling (aliases : String → Option String) :
    (∀ (orders : List Order) (em : Dict),
      aget (assign_order_tokens orders em).1 "" = none) ∧
    (∀ (orders : List Order) (em : Dict) (t n : String),
      aget (assign_order_tokens orders em).2 t = some n → n ≠ "") ∧
    (∀ (store : Store) (usr : Option String) (orders : List Order),
      get_order_status (persist_orders_snapshot aliases store usr orders) ""
        = get_order_status store "") ∧
    (∀ (cache : Cache) (orders : List Order), (∀ o ∈ orders, o.number = none) →
      update_cache_from_orders aliases cache orders = (cache, false)) ∧
    (∀ (st : WDState) (c : Nat) (u : String) (o : Order), o.number = none →
      wd_process_order aliases c u st o = st) := by
  refine ⟨?_, ?_, ?_, ?_, ?_⟩
  · intro orders em
    exact assign_fold_n2t_empty em orders ⟨[], [], [], 0⟩ rfl
  · intro orders em t n h
    exact assign_fold_t2n_truthy em orders ⟨[], [], [], 0⟩ (by intro t2 n2 h2; cases h2) t n h
  · intro store usr orders
    unfold persist_orders_snapshot
    cases hu : strTruthy usr with
    | none => rfl
    | some uid =>
      unfold get_order_status
      rw [persist_fold_other aliases uid "" rfl orders store]
  · intro cache orders h
    exact update_cache_fold_skips aliases orders (cache, false) h
  · intro st c u o h
    simp [wd_process_order, h]

/-- Witness for the C10 theorem: a concrete instance of each conjunct —
no token-map entry under the empty key, no store write under the empty
key, and the updater / detector ignoring an order with a missing number. -/
theorem falsy_number_handling_witness :
    aget (assign_order_tokens [order_empty_number] []).1 "" = none ∧
    get_order_status (persist_orders_snapshot no_aliases [] (some "u") [order_empty_number]) ""
      = get_order_status ([] : Store) "" ∧
    update_cache_from_orders no_aliases [] [order_no_number] = ([], false) ∧
    wd_process_order no_aliases 1 "u" ⟨[], [], [], false⟩ order_no_number
      = ⟨[], [], [], false⟩ :=
  ⟨(falsy_number_handling no_aliases).1 [order_empty_number] [],
   (falsy_number_handling no_aliases).2.2.1 [] (some "u") [order_empty_number],
   (falsy_number_handling no_aliases).2.2.2.1 [] [order_no_number] (by decide),
   (falsy_number_handling no_aliases).2.2.2.2 ⟨[], [], [], false⟩ 1 "u" order_no_number rfl⟩

/-! ### Token allocation invariants (C3, C4, C5) -/

theorem assign_pick_fresh (em : Dict) (st : TokenState) (num : String) :
    st.used.contains (assign_pick em st num).1 = false := by
  cases h : aget em num with
  | none =>
    simp only [assign_pick, h]
    exact next_token_fresh _ _
  | some token =>
    simp only [assign_pick, h]
    by_cases hc : token ≠ "" ∧ ¬ st.used.contains token = true
    · rw [if_pos hc]
      simpa using hc.2
    · rw [if_neg hc]
      exact next_token_fresh _ _

theorem assign_pick_truthy (em : Dict) (st : TokenState) (num : String) :
    (assign_pick em st num).1 ≠ "" := by
  cases h : aget em num with
  | none =>
    simp only [assign_pick, h]
    exact next_token_truthy _ _
  | some token =>
    simp only [assign_pick, h]
    by_cases hc : token ≠ "" ∧ ¬ st.used.contains token = true
    · rw [if_pos hc]
      exact hc.1
    · rw [if_neg hc]
      exact next_token_truthy _ _

/-- Basic unconditional invariants of the allocator state: every mapped
token is marked used, mapped tokens are truthy, and no token is mapped
from two different numbers. -/
structure TokBasic (st : TokenState) : Prop where
  val_used : ∀ n t, aget st.number_to_token n = some t → st.used.contains t = true
  val_truthy : ∀ n t, aget st.number_to_token n = some t → t ≠ ""
  inj : ∀ n1 n2 t, aget st.number_to_token n1 = some t →
    aget st.number_to_token n2 = some t → n1 = n2

theorem tokbasic_init : TokBasic ⟨[], [], [], 0⟩ := by
  constructor
  · intro n t h
    cases h
  · intro n t h
    cases h
  · intro n1 n2 t h1 h2
    cases h1

theorem assign_step_basic (em : Dict) (st : TokenState) (o : Order)
    (h : TokBasic st) : TokBasic (assign_step em st o) := by
  cases hn : strTruthy o.number with
  | none => simpa [assign_step, hn] using h
  | some num =>
    have hfresh := assign_pick_fresh em st num
    have htr := assign_pick_truthy em st num
    simp only [assign_step, hn]
    constructor
    · intro n t ht
      by_cases hkey : num = n
      · subst hkey
        rw [aget_aset_self] at ht
        cases ht
        simp [List.contains_cons]
      · rw [aget_aset_ne _ _ _ _ hkey] at ht
        have h2 : t ∈ st.used := by simpa using h.val_used n t ht
        simp [List.contains_cons, h2]
    · intro n t ht
      by_cases hkey : num = n
      · subst hkey
        rw [aget_aset_self] at ht
        cases ht
        exact htr
      · rw [aget_aset_ne _ _ _ _ hkey] at ht
        exact h.val_truthy n t ht
    · intro n1 n2 t h1 h2
      by_cases k1 : num = n1 <;> by_cases k2 : num = n2
      · rw [← k1, ← k2]
      · subst k1
        rw [aget_aset_self] at h1
        cases h1
        rw [aget_aset_ne _ _ _ _ k2] at h2
        rw [h.val_used n2 _ h2] at hfresh
        cases hfresh
      · subst k2
        rw [aget_aset_self] at h2
        cases h2
        rw [aget_aset_ne _ _ _ _ k1] at h1
        rw [h.val_used n1 _ h1] at hfresh
        cases hfresh
      · rw [aget_aset_ne _ _ _ _ k1] at h1
        rw [aget_aset_ne _ _ _ _ k2] at h2
        exact h.inj n1 n2 t h1 h2

theorem assign_fold_basic (em : Dict) :
    ∀ (orders : List Order) (st : TokenState), TokBasic st →
      TokBasic (orders.foldl (assign_step em) st) := by
  intro orders
  induction orders with
  | nil => intro st h; simpa using h
  | cons o rest ih =>
    intro st h
    simp only [List.foldl_cons]
    exact ih _ (assign_step_basic em st o h)

theorem assign_step_keeps_other (em : Dict) (st : TokenState) (o : Order)
    (n : String) (h : strTruthy o.number ≠ some n) :
    aget ((assign_step em st o).number_to_token) n = aget st.number_to_token n := by
  cases hn : strTruthy o.number with
  | none => simp [assign_step, hn]
  | some num =>
    simp only [assign_step, hn]
    exact aget_aset_ne _ _ _ _ (fun hc => h (by rw [hn, hc]))

theorem assign_fold_keeps_other (em : Dict) :
    ∀ (orders : List Order) (st : TokenState) (n : String),
      (∀ o ∈ orders, strTruthy o.number ≠ some n) →
      aget ((orders.foldl (assign_step em) st).number_to_token) n
        = aget st.number_to_token n := by
  intro orders
  induction orders with
  | nil => intro st n _; rfl
  | cons o rest ih =>
    intro st n h
    simp only [List.foldl_cons]
    rw [ih _ n (fun o2 h2 => h o2 (List.mem_cons_of_mem o h2))]
    exact assign_step_keeps_other em st o n (h o (List.mem_cons_self o rest))

theorem assign_fold_isSome (em : Dict) :
    ∀ (orders : List Order) (st : TokenState) (n : String),
      (aget st.number_to_token n).isSome = true →
      (aget ((orders.foldl (assign_step em) st).number_to_token) n).isSome = true := by
  intro orders
  induction orders with
  | nil => intro st n h; simpa using h
  | cons o rest ih =>
    intro st n h
    simp only [List.foldl_cons]
    apply ih
    cases hn : strTruthy o.number with
    | none => simpa [assign_step, hn] using h
    | some num =>
      simp only [assign_step, hn]
      by_cases hkey : num = n
      · subst hkey
        rw [aget_aset_self]
        rfl
      · rw [aget_aset_ne _ _ _ _ hkey]
        exact h

theorem assign_fold_mem_isSome (em : Dict) :
    ∀ (orders : List Order) (st : TokenState) (n : String),
      n ∈ orders.filterMap (fun o => strTruthy o.number) →
      (aget ((orders.foldl (assign_step em) st).number_to_token) n).isSome = true := by
  intro orders
  induction orders with
  | nil => intro st n h; cases h
  | cons o rest ih =>
    intro st n h
    simp only [List.foldl_cons]
    cases hn : strTruthy o.number with
    | none =>
      simp only [List.filterMap_cons, hn] at h
      exact ih _ n h
    | some num =>
      simp only [List.filterMap_cons, hn] at h
      rcases List.mem_cons.mp h with rfl | h2
      · apply assign_fold_isSome
        simp [assign_step, hn, aget_aset_self]
      · exact ih _ n h2

theorem assign_fold_keys (em : Dict) :
    ∀ (orders : List Order) (st : TokenState) (n : String),
      aget ((orders.foldl (assign_step em) st).number_to_token) n ≠ none →
      aget st.number_to_token n ≠ none ∨
        n ∈ orders.filterMap (fun o => strTruthy o.number) := by
  intro orders
  induction orders with
  | nil => intro st n h; exact Or.inl h
  | cons o rest ih =>
    intro st n h
    simp only [List.foldl_cons] at h
    rcases ih _ n h with h2 | h2
    · cases hn : strTruthy o.number with
      | none =>
        simp only [List.filterMap_cons, hn]
        simp only [assign_step, hn] at h2
        exact Or.inl h2
      | some num =>
        simp only [List.filterMap_cons, hn]
        by_cases hkey : num = n
        · subst hkey
          exact Or.inr (List.mem_cons_self _ _)
        · simp only [assign_step, hn] at h2
          rw [aget_aset_ne _ _ _ _ hkey] at h2
          exact Or.inl h2
    · rw [List.filterMap_cons]
      cases hn : strTruthy o.number with
      | none => exact Or.inr h2
      | some num => exact Or.inr (List.mem_cons_of_mem _ h2)

/-- Inverse-map invariant of the allocator (holds along the fold as long
as the incoming numbers are fresh keys). -/
structure TokInv (st : TokenState) : Prop where
  inverse : ∀ n t, aget st.number_to_token n = some t ↔
    aget st.token_to_number t = some n
  t2n_used : ∀ t n, aget st.token_to_number t = some n → st.used.contains t = true

theorem assign_step_inv (em : Dict) (st : TokenState) (o : Order)
    (h : TokInv st)
    (hkey : ∀ s, strTruthy o.number = some s → aget st.number_to_token s = none) :
    TokInv (assign_step em st o) := by
  cases hn : strTruthy o.number with
  | none => simpa [assign_step, hn] using h
  | some num =>
    have hfresh := assign_pick_fresh em st num
    have hnum := hkey num hn
    simp only [assign_step, hn]
    constructor
    · intro n t
      by_cases k1 : num = n <;>
        by_cases k2 : (assign_pick em st num).1 = t
      · subst k1; subst k2
        rw [aget_aset_self, aget_aset_self]
        simp
      · subst k1
        rw [aget_aset_self, aget_aset_ne _ _ _ _ k2]
        constructor
        · intro ht
          cases ht
          exact absurd rfl k2
        · intro ht
          have := (h.inverse num t).mpr ht
          rw [hnum] at this
          cases this
      · subst k2
        rw [aget_aset_ne _ _ _ _ k1, aget_aset_self]
        constructor
        · intro ht
          have := h.t2n_used _ n ((h.inverse n _).mp ht)
          rw [this] at hfresh
          cases hfresh
        · intro ht
          cases ht
          exact absurd rfl k1
      · rw [aget_aset_ne _ _ _ _ k1, aget_aset_ne _ _ _ _ k2]
        exact h.inverse n t
    · intro t n ht
      by_cases k2 : (assign_pick em st num).1 = t
      · subst k2
        simp [List.contains_cons]
      · rw [aget_aset_ne _ _ _ _ k2] at ht
        have h2 : t ∈ st.used := by simpa using h.t2n_used t n ht
        simp [List.contains_cons, h2]

theorem assign_fold_inv (em : Dict) :
    ∀ (orders : List Order) (st : TokenState),
      (orders.filterMap (fun o => strTruthy o.number)).Nodup →
      (∀ s ∈ orders.filterMap (fun o => strTruthy o.number),
        aget st.number_to_token s = none) →
      TokInv st → TokInv (orders.foldl (assign_step em) st) := by
  intro orders
  induction orders with
  | nil => intro st _ _ h; simpa using h
  | cons o rest ih =>
    intro st hnd hdis h
    simp only [List.foldl_cons]
    cases hn : strTruthy o.number with
    | none =>
      simp only [List.filterMap_cons, hn] at hnd hdis
      have hstep : assign_step em st o = st := by simp [assign_step, hn]
      rw [hstep]
      exact ih st hnd hdis h
    | some num =>
      simp only [List.filterMap_cons, hn] at hnd hdis
      have hnd2 := List.nodup_cons.mp hnd
      apply ih
      · exact hnd2.2
      · intro s hs
        have hsne : num ≠ s := fun hc => hnd2.1 (hc ▸ hs)
        simp only [assign_step, hn]
        rw [aget_aset_ne _ _ _ _ hsne]
        exact hdis s (List.mem_cons_of_mem _ hs)
      · exact assign_step_inv em st o h (fun s hsn => by
          cases hn ▸ hsn
          exact hdis num (List.mem_cons_self _ _))

/-- The B-generation fold reassigns every number its token from the
existing map, provided the numbers are distinct and their existing tokens
are truthy, pairwise distinct and initially unused. -/
theorem assign_fold_assigns_existing (em : Dict) :
    ∀ (orders : List Order) (st : TokenState),
      (orders.filterMap (fun o => strTruthy o.number)).Nodup →
      (∀ n ∈ orders.filterMap (fun o => strTruthy o.number),
        ∃ t, aget em n = some t ∧ t ≠ "" ∧ st.used.contains t = false ∧
          ∀ n2 ∈ orders.filterMap (fun o => strTruthy o.number),
            n2 ≠ n → aget em n2 ≠ some t) →
      ∀ n ∈ orders.filterMap (fun o => strTruthy o.number),
        aget ((orders.foldl (assign_step em) st).number_to_token) n = aget em n := by
  intro orders
  induction orders with
  | nil => intro st _ _ n h; cases h
  | cons o rest ih =>
    intro st hnd hcov n hn
    cases hno : strTruthy o.number with
    | none =>
      simp only [List.filterMap_cons, hno] at hnd hcov hn
      simp only [List.foldl_cons,
        show assign_step em st o = st from by simp [assign_step, hno]]
      exact ih st hnd hcov n hn
    | some num =>
      simp only [List.filterMap_cons, hno] at hnd hcov hn
      have hnd2 := List.nodup_cons.mp hnd
      obtain ⟨t, hem, htne, hfr, hdist⟩ := hcov num (List.mem_cons_self _ _)
      have hpick : assign_pick em st num = (t, st.counter) := by
        simp only [assign_pick, hem]
        rw [if_pos ⟨htne, by rw [hfr]; exact Bool.false_ne_true⟩]
      have hstep : assign_step em st o =
          { used := t :: st.used,
            number_to_token := aset st.number_to_token num t,
            token_to_number := aset st.token_to_number t num,
            counter := st.counter } := by
        simp [assign_step, hno, hpick]
      simp only [List.foldl_cons, hstep]
      rcases List.mem_cons.mp hn with rfl | hn2
      · rw [assign_fold_keeps_other em rest _ n (by
          intro o2 h2 hc
          exact hnd2.1 (List.mem_filterMap.mpr ⟨o2, h2, hc⟩))]
        rw [aget_aset_self, hem]
      · apply ih
        · exact hnd2.2
        · intro m hm
          obtain ⟨tm, hem2, htne2, hfr2, hdist2⟩ := hcov m (List.mem_cons_of_mem _ hm)
          refine ⟨tm, hem2, htne2, ?_, ?_⟩
          · have hmn : m ≠ num := fun hc => hnd2.1 (hc ▸ hm)
            have htm : tm ≠ t := fun hc => by
              have := hdist m (List.mem_cons_of_mem _ hm) hmn
              rw [hc] at hem2
              exact this hem2
            have hm2 : tm ∉ st.used := by simpa using hfr2
            simp [List.contains_cons, htm, hm2]
          · intro n2 h2 hne
            exact hdist2 n2 (List.mem_cons_of_mem _ h2) hne
        · exact hn2

/-! ### C3 — token maps are exact inverses -/

/-- C3 (counterexample): on a list that repeats an order number, the maps
are not inverses and `token_to_number` has a duplicate value — both tokens
"0" and "1" point at number "5", while `number_to_token` maps "5" to "1"
only. -/
theorem assign_tokens_inverse_counterexample :
    aget (assign_order_tokens [order5, order5] []).2 "0" = some "5" ∧
    aget (assign_order_tokens [order5, order5] []).2 "1" = some "5" ∧
    aget (assign_order_tokens [order5, order5] []).1 "5" = some "1" ∧
    ¬ (aget (assign_order_tokens [order5, order5] []).1 "5" = some "0") := by
  decide

/-- C3 (amended): for every order list whose truthy order numbers are
pairwise distinct, and every previous token map, `number_to_token` and
`token_to_number` are exact inverses, and `token_to_number` has no
duplicate values. -/
theorem assign_tokens_inverse (orders : List Order) (existing_map : Dict)
    (hnodup : (orders.filterMap (fun o => strTruthy o.number)).Nodup) :
    (∀ n t, aget (assign_order_tokens orders existing_map).1 n = some t ↔
            aget (assign_order_tokens orders existing_map).2 t = some n) ∧
    (∀ t1 t2 n, aget (assign_order_tokens orders existing_map).2 t1 = some n →
            aget (assign_order_tokens orders existing_map).2 t2 = some n →
            t1 = t2) := by
  have hbase : TokInv ⟨[], [], [], 0⟩ := by
    constructor
    · intro n t
      constructor <;> (intro h; cases h)
    · intro t n h
      cases h
  have hinv := assign_fold_inv existing_map orders ⟨[], [], [], 0⟩ hnodup
    (fun s _ => rfl) hbase
  refine ⟨fun n t => hinv.inverse n t, fun t1 t2 n h1 h2 => ?_⟩
  have e1 := (hinv.inverse n t1).mpr h1
  have e2 := (hinv.inverse n t2).mpr h2
  rw [e1] at e2
  cases e2
  rfl

/-- Witness for the C3 theorem on the two-order example list. -/
theorem assign_tokens_inverse_witness :
    (∀ n t, aget (assign_order_tokens [order100, order101] []).1 n = some t ↔
            aget (assign_order_tokens [order100, order101] []).2 t = some n) ∧
    (∀ t1 t2 n, aget (assign_order_tokens [order100, order101] []).2 t1 = some n →
            aget (assign_order_tokens [order100, order101] []).2 t2 = some n →
            t1 = t2) :=
  assign_tokens_inverse [order100, order101] [] (by decide)

/-! ### C4 — token stability under additions -/

/-- C4 (counterexample): generation A assigns token "0" to order 7; in
generation B the order set is A's plus order 8 (no removals), but the
added order comes first in the source's list, takes the fresh-counter
token "0", and order 7 is pushed to "1": the pair ("7", "0") of A does not
appear in B. -/
theorem token_stability_counterexample :
    aget (assign_order_tokens [order7] []).1 "7" = some "0" ∧
    aget (assign_order_tokens [order8, order7]
            (assign_order_tokens [order7] []).1).1 "7" = some "1" ∧
    ¬ (aget (assign_order_tokens [order8, order7]
            (assign_order_tokens [order7] []).1).1 "7" = some "0") := by
  decide

/-- C4 (amended): if generation B's list consists of generation A's
orders followed by the added orders (and the truthy numbers of the
combined list are pairwise distinct), every (number, token) pair of
generation A appears unchanged in generation B's `number_to_token`. -/
theorem token_stability_append (ordersA adds : List Order) (em : Dict)
    (hnodup : ((ordersA ++ adds).filterMap (fun o => strTruthy o.number)).Nodup) :
    ∀ n t, aget (assign_order_tokens ordersA em).1 n = some t →
      aget (assign_order_tokens (ordersA ++ adds)
              (assign_order_tokens ordersA em).1).1 n = some t := by
  intro n t h
  have hsplitmap : ((ordersA ++ adds).filterMap (fun o => strTruthy o.number))
      = ordersA.filterMap (fun o => strTruthy o.number)
        ++ adds.filterMap (fun o => strTruthy o.number) := List.filterMap_append _ _ _
  rw [hsplitmap] at hnodup
  have hnodupA := (List.nodup_append.mp hnodup).1
  have hdisj := (List.nodup_append.mp hnodup).2.2
  have hbasic : TokBasic (ordersA.foldl (assign_step em) ⟨[], [], [], 0⟩) :=
    assign_fold_basic em ordersA ⟨[], [], [], 0⟩ tokbasic_init
  have hmem : n ∈ ordersA.filterMap (fun o => strTruthy o.number) := by
    rcases assign_fold_keys em ordersA ⟨[], [], [], 0⟩ n (by
      intro hc
      rw [show aget ((ordersA.foldl (assign_step em) ⟨[], [], [], 0⟩).number_to_token) n
          = aget (assign_order_tokens ordersA em).1 n from rfl, h] at hc
      cases hc) with h2 | h2
    · cases h2 rfl
    · exact h2
  have hcov : ∀ m ∈ ordersA.filterMap (fun o => strTruthy o.number),
      ∃ tm, aget (assign_order_tokens ordersA em).1 m = some tm ∧ tm ≠ "" ∧
        (([] : List String).contains tm = false) ∧
        ∀ m2 ∈ ordersA.filterMap (fun o => strTruthy o.number),
          m2 ≠ m → aget (assign_order_tokens ordersA em).1 m2 ≠ some tm := by
    intro m hm
    have hsome := assign_fold_mem_isSome em ordersA ⟨[], [], [], 0⟩ m hm
    obtain ⟨tm, htm⟩ := Option.isSome_iff_exists.mp hsome
    refine ⟨tm, htm, hbasic.val_truthy m tm htm, rfl, ?_⟩
    intro m2 _ hne hc
    exact hne (hbasic.inj m2 m tm hc htm)
  have hstage1 := assign_fold_assigns_existing (assign_order_tokens ordersA em).1
    ordersA ⟨[], [], [], 0⟩ hnodupA hcov n hmem
  have hadds : ∀ o ∈ adds, strTruthy o.number ≠ some n := by
    intro o ho hc
    exact hdisj hmem (List.mem_filterMap.mpr ⟨o, ho, hc⟩)
  show aget (((ordersA ++ adds).foldl
      (assign_step (assign_order_tokens ordersA em).1)
      ⟨[], [], [], 0⟩).number_to_token) n = some t
  rw [List.foldl_append,
    assign_fold_keeps_other (assign_order_tokens ordersA em).1 adds _ n hadds,
    hstage1]
  exact h

/-- Witness for the C4 theorem: A = [order 7], B = A ++ [order 8]; order
7 keeps its token "0". -/
theorem token_stability_append_witness :
    aget (assign_order_tokens ([order7] ++ [order8])
            (assign_order_tokens [order7] []).1).1 "7" = some "0" :=
  token_stability_append [order7] [order8] [] (by decide) "7" "0" (by decide)

/-! ### C5 — tokens are never reassigned within a generation, but are
recycled across generations -/

/-- C5 (counterexample): order 7 disappears; the next generation restarts
the counter at 0 and hands token "0" — previously order 7's token — to the
different order 8, so allocation does recycle tokens across generations of
a session. -/
theorem token_recycling_counterexample :
    aget (assign_order_tokens [order7] []).2 "0" = some "7" ∧
    aget (assign_order_tokens [order8]
            (assign_order_tokens [order7] []).1).2 "0" = some "8" := by
  decide

/-- C5 (amended): within a single allocation generation no token is ever
assigned to two different orders (for any order list and any previous
map); across generations, however, a token freed by a disappearing order
can be reassigned — see the counterexample. -/
theorem token_unique_within_generation (orders : List Order) (existing_map : Dict) :
    ∀ n1 n2 t, aget (assign_order_tokens orders existing_map).1 n1 = some t →
      aget (assign_order_tokens orders existing_map).1 n2 = some t → n1 = n2 :=
  fun n1 n2 t h1 h2 =>
    (assign_fold_basic existing_map orders ⟨[], [], [], 0⟩ tokbasic_init).inj
      n1 n2 t h1 h2

/-- Witness for the C5 theorem: in the generation over orders 7 and 8,
token "1" belongs to order 8 and only to it. -/
theorem token_unique_within_generation_witness :
    aget (assign_order_tokens [order7, order8] []).1 "8" = some "1" ∧
    ("8" : String) = "8" :=
  ⟨by decide,
   token_unique_within_generation [order7, order8] [] "8" "8" "1"
     (by decide) (by decide)⟩

/-! ### C8 — no-op filter switch -/

/-- Dispatch of a `orders:filter:<mode>` payload reaches `cb_filter` with
the preamble-updated state, for the three defined modes. -/
theorem handle_orders_callback_filter (aliases : String → Option String)
    (env : NavEnv) (st : NavState) (mode : String)
    (hm : mode = "all" ∨ mode = "active" ∨ mode = "unpaid") :
    handle_orders_callback aliases env st ("orders:filter:" ++ mode) =
      cb_filter aliases env
        { st with sess := { st.sess with
            active_chat_id := some env.chatId,
            active_message_id := some env.queryMsgId } } mode := by
  rcases hm with rfl | rfl | rfl <;> rfl

/-- C8 (amended): an inline-callback change-filter request naming the
session's already-active mode returns only an acknowledgement: the result
is the incoming state (with only the handler preamble's active chat and
message refs refreshed) and a single `answer` effect — no fetch, no store
or cache change, no edit, send or delete. -/
theorem noop_filter_callback (aliases : String → Option String) (env : NavEnv)
    (st : NavState) (mode : String)
    (hmode : (aget FILTER_MODES mode).isSome = true)
    (hcur : st.sess.orders_filter = some mode) :
    handle_orders_callback aliases env st ("orders:filter:" ++ mode) =
      ({ st with sess := { st.sess with
           active_chat_id := some env.chatId,
           active_message_id := some env.queryMsgId } },
       [Effect.answer (some "Этот фильтр уже активен ✅") false]) := by
  have hmode3 : mode = "all" ∨ mode = "active" ∨ mode = "unpaid" := by
    by_cases h1 : mode = "all"
    · exact Or.inl h1
    · by_cases h2 : mode = "active"
      · exact Or.inr (Or.inl h2)
      · by_cases h3 : mode = "unpaid"
        · exact Or.inr (Or.inr h3)
        · exfalso
          rw [FILTER_MODES, aget, if_neg (fun hc => h1 hc.symm),
            aget, if_neg (fun hc => h2 hc.symm),
            aget, if_neg (fun hc => h3 hc.symm), aget] at hmode
          cases hmode
  rw [handle_orders_callback_filter aliases env st mode hmode3]
  obtain ⟨v, hv⟩ := Option.isSome_iff_exists.mp hmode
  simp [cb_filter, hv, hcur]

/-- Witness for the C8 theorem on the warm sample session whose active
filter is `all`. -/
theorem noop_filter_callback_witness :
    handle_orders_callback no_aliases sample_env sample_nav "orders:filter:all" =
      ({ sample_nav with sess := { sample_nav.sess with
           active_chat_id := some sample_env.chatId,
           active_message_id := some sample_env.queryMsgId } },
       [Effect.answer (some "Этот фильтр уже активен ✅") false]) :=
  noop_filter_callback no_aliases sample_env sample_nav "all" (by decide) (by decide)

/-- C8 (counterexample): the claim fails on the reply-keyboard filter
command — pressing "Фильтр: Все" while the active filter is already `all`
re-renders: the handler edits the overview message and sends a fresh menu
message instead of returning only an acknowledgement. -/
theorem noop_filter_text_counterexample :
    sample_nav.sess.orders_filter = some "all" ∧
    (handle_text_filter no_aliases sample_env sample_nav "Фильтр: Все").isSome = true ∧
    Effect.sendMessage MENU_HINT_TEXT (build_orders_menu_keyboard (some "all"))
      ∈ ((handle_text_filter no_aliases sample_env sample_nav "Фильтр: Все").getD
          (sample_nav, [])).2 ∧
    ((handle_text_filter no_aliases sample_env sample_nav "Фильтр: Все").getD
          (sample_nav, [])).2.any
      (fun e => match e with | Effect.editMessage _ _ => true | _ => false) = true := by
  refine ⟨by decide, by decide, by decide, by decide⟩

/-! ### C9 — single forced resync on an unresolvable token -/

/-- Dispatch of an `order:<token>` payload reaches `cb_select` with the
preamble-updated state. -/
theorem handle_orders_callback_select (aliases : String → Option String)
    (env : NavEnv) (st : NavState) (token : String) :
    handle_orders_callback aliases env st ("order:" ++ token) =
      cb_select aliases env
        { st with sess := { st.sess with
            active_chat_id := some env.chatId,
            active_message_id := some env.queryMsgId } } token := by
  simp only [handle_orders_callback]
  rw [show ("order:" ++ token).data = 'o' :: 'r' :: 'd' :: 'e' :: 'r' :: ':' :: token.data
    from by obtain ⟨l⟩ := token; rfl]
  rw [if_neg (by simp [show ("orders:back").data
        = ['o', 'r', 'd', 'e', 'r', 's', ':', 'b', 'a', 'c', 'k'] from rfl]),
      if_neg (by simp [show ("orders:refresh").data
        = ['o', 'r', 'd', 'e', 'r', 's', ':', 'r', 'e', 'f', 'r', 'e', 's', 'h'] from rfl]),
      if_neg (by simp [show ("orders:filter:").data
        = ['o', 'r', 'd', 'e', 'r', 's', ':', 'f', 'i', 'l', 't', 'e', 'r', ':'] from rfl,
        chBegins]),
      if_neg (by simp [show ("order-refresh:").data
        = ['o', 'r', 'd', 'e', 'r', '-', 'r', 'e', 'f', 'r', 'e', 's', 'h', ':'] from rfl,
        chBegins]),
      if_pos (by simp [show ("order:").data = ['o', 'r', 'd', 'e', 'r', ':'] from rfl,
        chBegins])]
  rfl

/-- A forced `sync_orders_context` under a bound account always succeeds,
performs exactly one fetch effect, and installs the token map freshly
computed from the fetched orders and the previous `number_to_token`. -/
theorem sync_force_spec (aliases : String → Option String) (env : NavEnv)
    (st : NavState) (uid : String)
    (huser : strTruthy st.sess.abcp_user_id = some uid) :
    ∃ r, sync_orders_context aliases env st true none = some r ∧
      r.effects = [Effect.fetch] ∧
      r.st.sess.orders_token_to_number =
        some (assign_order_tokens env.fetched
          (st.sess.orders_number_to_token.getD [])).2 ∧
      r.st.sess.view = st.sess.view := by
  simp only [sync_orders_context, huser]
  exact ⟨_, rfl, rfl, rfl, rfl⟩

/-- C9: a select-order request whose token resolves neither in the current
session nor after the forced resync performs exactly one fetch (one forced
resync, no second one and no retry loop), renders the "not found" message,
and leaves the session in the overview state. -/
theorem select_unknown_token_single_resync (aliases : String → Option String)
    (env : NavEnv) (st : NavState) (token uid : String)
    (huser : strTruthy st.sess.abcp_user_id = some uid)
    (htok1 : strTruthy (aget (st.sess.orders_token_to_number.getD []) token) = none)
    (htok2 : strTruthy (aget (assign_order_tokens env.fetched
        (st.sess.orders_number_to_token.getD [])).2 token) = none) :
    ((handle_orders_callback aliases env st ("order:" ++ token)).2.countP
        (fun e => e = Effect.fetch) = 1) ∧
    (∃ kb, Effect.editMessage
        "❌ Не удалось найти заказ. Обновите список и попробуйте снова." kb
        ∈ (handle_orders_callback aliases env st ("order:" ++ token)).2) ∧
    (handle_orders_callback aliases env st ("order:" ++ token)).1.sess.view
      = some "overview" := by
  rw [handle_orders_callback_select aliases env st token]
  obtain ⟨r, hr, heff, ht2n, -⟩ := sync_force_spec aliases env
    { st with sess := { st.sess with
        active_chat_id := some env.chatId,
        active_message_id := some env.queryMsgId } } uid huser
  simp only [cb_select, htok1, hr, ht2n, Option.getD_some, htok2]
  refine ⟨?_, ⟨_, List.mem_append_right _ (List.mem_cons_self _ _)⟩, trivial⟩
  rw [heff]
  simp

/-- Witness for the C9 theorem: warm sample session, unknown token "zz",
remote returning an empty order list. -/
theorem select_unknown_token_single_resync_witness :
    ((handle_orders_callback no_aliases sample_env sample_nav "order:zz").2.countP
        (fun e => e = Effect.fetch) = 1) ∧
    (∃ kb, Effect.editMessage
        "❌ Не удалось найти заказ. Обновите список и попробуйте снова." kb
        ∈ (handle_orders_callback no_aliases sample_env sample_nav "order:zz").2) ∧
    (handle_orders_callback no_aliases sample_env sample_nav "order:zz").1.sess.view
      = some "overview" :=
  select_unknown_token_single_resync no_aliases sample_env sample_nav "zz" "u7"
    (by decide) (by decide) (by decide)

/-- C10 (counterexample): the claim that *every* core operation skips
falsy order numbers fails — with an empty-string order number, the cache
updater writes a cache entry keyed `""` and the change detector classifies
the order (first sighting: it persists a store row keyed `""`). -/
theorem falsy_number_cache_counterexample :
    (update_cache_from_orders no_aliases [] [order_empty_number]).1
      = [("", format_order_status no_aliases order_empty_number)] ∧
    aget (update_cache_from_orders no_aliases [] [order_empty_number]).1 "" ≠ none ∧
    get_order_status
      (wd_process_order no_aliases 1 "u" ⟨[], [], [], false⟩ order_empty_number).store ""
      = some (format_order_status no_aliases order_empty_number) := by
  decide

end BotAbcp
